import Mathlib

/-!
Verification of the klaus collections / reconciliation engines.

This file gives a shallow embedding in Lean 4 of the two algorithmic cores of
the repository — the transaction/invoice matcher of `matching_engine.py`
(class `ReconciliationEngine`) and the collections escalation engine of
`klaus_engine.py` (class `KlausEngine`) — and proves or refutes the
specification claims about them.

Embedding conventions:
* Python dict-shaped records become structures; `dict.get(k)` becomes an
  `Option` field, `dict.get(k, default)` a field with the default applied.
* Python floats become exact rationals (`ℚ`).
* ISO date strings are parsed by an executable `parseDateIso` that models
  `datetime.fromisoformat` on calendar dates `YYYY-MM-DD` (the shape the
  repository's data uses); parse failure is `none`, matching the
  `except`-branches of the source.  Day differences use the proleptic
  Gregorian day number (Python timedelta `.days` at day granularity).
* The external `fuzzywuzzy` library is an uninterpreted parameter: a `Fuzz`
  record of three score functions threaded through the name matcher, so every
  theorem holds for every behaviour of the library.
* Python `round` (banker's rounding) is modelled exactly by `roundHalfEven`.
-/

attribute [local semireducible] Rat.add Rat.mul Rat.sub Rat.inv

/-- Decidable equality for `Except`, used to evaluate concrete engine runs
inside proofs. -/
instance exceptDecEq {ε α : Type} [DecidableEq ε] [DecidableEq α] :
    DecidableEq (Except ε α) := fun a b =>
  match a, b with
  | .ok x, .ok y =>
      if h : x = y then .isTrue (by rw [h]) else .isFalse (by intro hc; cases hc; exact h rfl)
  | .error x, .error y =>
      if h : x = y then .isTrue (by rw [h]) else .isFalse (by intro hc; cases hc; exact h rfl)
  | .ok _, .error _ => .isFalse (by intro hc; cases hc)
  | .error _, .ok _ => .isFalse (by intro hc; cases hc)

/-- Python truthiness-aware `a or b` for string-valued `dict.get` chains:
`None` and `''` are falsy. -/
def pyOr (a b : Option String) : Option String :=
  match a with
  | some s => if s = "" then b else some s
  | none => b

/-- Python `bool(s)` for an optional string: present and non-empty. -/
def pyTruthy (a : Option String) : Bool :=
  match a with
  | some s => s ≠ ""
  | none => false

/-- Word character in the sense of the regex `\w` (ASCII view). -/
def isWordChar (c : Char) : Bool :=
  c.isAlphanum || c = '_'

/-- Whitespace in the sense of Python `str.split()` / `str.strip()`. -/
def isPySpace (c : Char) : Bool :=
  c = ' ' || c = '\t' || c = '\n' || c = '\r'

/-- Python `str.strip()` on a character list. -/
def stripChars (l : List Char) : List Char :=
  ((l.dropWhile isPySpace).reverse.dropWhile isPySpace).reverse

/-- Python `str.strip()`. -/
def pyStrip (s : String) : String := ⟨stripChars s.data⟩

/-- Python `str.lower()` (ASCII view). -/
def pyLower (s : String) : String := ⟨s.data.map Char.toLower⟩

/-- Python `str.upper()` (ASCII view). -/
def pyUpper (s : String) : String := ⟨s.data.map Char.toUpper⟩

/-- Substring containment up to the Bool level: Python `needle in hay`. -/
def containsSub (hay needle : String) : Bool :=
  hay.data.tails.any (fun t => needle.data.isPrefixOf t)

/-- Python `str.split()` (split on whitespace, dropping empty pieces). -/
def pySplitAux : List Char → List Char → List String
  | cur, [] => if cur = [] then [] else [⟨cur.reverse⟩]
  | cur, c :: cs =>
      if isPySpace c then
        if cur = [] then pySplitAux [] cs else ⟨cur.reverse⟩ :: pySplitAux [] cs
      else pySplitAux (c :: cur) cs

/-- Python `str.split()`. -/
def pySplit (s : String) : List String := pySplitAux [] s.data

/-- Python `sep.join(parts)`. -/
def pyJoin (sep : String) : List String → String
  | [] => ""
  | [x] => x
  | x :: xs => x ++ sep ++ pyJoin sep xs

/-- Python `' '.join(s.split())` — whitespace normalisation. -/
def normWs (s : String) : String := pyJoin " " (pySplit s)

/-- The character sequence of the word `suspend`, the service-suspension
marker the VIP tone claim is about. -/
def susChars : List Char := "suspend".data

/-- Python `str.replace(pat, rep)` on character lists (the patterns the
source uses are non-empty; an empty pattern is returned unchanged). -/
def replaceAllCh (pat rep : List Char) : Nat → List Char → List Char
  | 0, l => l
  | _ + 1, [] => []
  | fuel + 1, c :: cs =>
      if pat ≠ [] && pat.isPrefixOf (c :: cs) then
        rep ++ replaceAllCh pat rep fuel ((c :: cs).drop pat.length)
      else
        c :: replaceAllCh pat rep fuel cs

/-- Python `str.replace(pat, rep)`. -/
def pyReplace (s pat rep : String) : String :=
  ⟨replaceAllCh pat.data rep.data s.data.length s.data⟩

/-- Python `str.endswith`. -/
def pyEndsWith (s suf : String) : Bool :=
  suf.data.isSuffixOf s.data

/-- Drop a literal suffix: Python `s[:-len(suf)]` guarded by `endswith`. -/
def dropSuffixStr (s suf : String) : String :=
  ⟨s.data.take (s.data.length - suf.data.length)⟩

/-- A token of the miniature regex patterns `\b<suffix>\b` used by
`_clean_company_name`; `.` in a suffix such as `l.l.c.` is the regex
any-character wildcard. -/
inductive PTok where
  | pchar (c : Char)
  | pany
deriving DecidableEq

/-- Compile a suffix string into pattern tokens (dot = wildcard). -/
def patOf (s : String) : List PTok :=
  s.data.map (fun c => if c = '.' then PTok.pany else PTok.pchar c)

/-- Does the token list match the next `pat.length` characters? -/
def toksMatch : List PTok → List Char → Bool
  | [], _ => true
  | _ :: _, [] => false
  | PTok.pany :: ts, _ :: cs => toksMatch ts cs
  | PTok.pchar p :: ts, c :: cs => p = c && toksMatch ts cs

/-- Word-boundary test `\b` between two (possibly absent) characters. -/
def wordBoundary (a b : Option Char) : Bool :=
  (a.elim false isWordChar) != (b.elim false isWordChar)

/-- One pass of `re.sub(rf'\b{suffix}\b', '', name)`: scan left to right,
removing every non-overlapping word-bounded match, continuing after each
match (Python `re.sub` semantics). -/
def scrubPat (pat : List PTok) : Option Char → Nat → List Char → List Char
  | _, 0, l => l
  | _, _ + 1, [] => []
  | prev, fuel + 1, c :: cs =>
      let l := c :: cs
      let n := pat.length
      if pat ≠ [] && toksMatch pat l && n ≤ l.length &&
          wordBoundary prev (some c) &&
          wordBoundary (l.get? (n - 1)) (l.get? n) then
        scrubPat pat (l.get? (n - 1)) fuel (l.drop n)
      else
        c :: scrubPat pat (some c) fuel cs

/-- `re.sub(rf'\b{suffix}\b', '', name)` as used by `_clean_company_name`. -/
def scrubWordBounded (s suffix : String) : String :=
  ⟨scrubPat (patOf suffix) none s.data.length s.data⟩

/-- First-occurrence deduplication, carrying the set of elements seen. -/
def pySetListAux (seen : List String) : List String → List String
  | [] => []
  | x :: xs => if x ∈ seen then pySetListAux seen xs else x :: pySetListAux (x :: seen) xs

/-- Python-set materialisation `list(set(xs))` for strings; we model the
(within-process deterministic) iteration order as first-occurrence order. -/
def pySetList (xs : List String) : List String := pySetListAux [] xs

/-- Python `str.rjust`-style padding used by format specs such as `:>10`. -/
def pyRjust (w : Nat) (s : String) : String :=
  ⟨List.replicate (w - s.data.length) ' ' ++ s.data⟩

/-- Zero-pad a number to two digits (`%m`, `%d`). -/
def zeroPad2 (n : Nat) : String :=
  if n < 10 then ⟨'0' :: (Nat.repr n).data⟩ else Nat.repr n

/-- Zero-pad a number to four digits (`%Y`). -/
def zeroPad4 (n : Nat) : String :=
  ⟨List.replicate (4 - (Nat.repr n).data.length) '0' ++ (Nat.repr n).data⟩

/-- Banker's rounding of a rational to an integer — Python `round(x)`. -/
def roundHalfEven (x : ℚ) : ℤ :=
  let f : ℤ := x.num.fdiv (x.den : ℤ)
  let r : ℤ := x.num - f * (x.den : ℤ)
  if 2 * r < (x.den : ℤ) then f
  else if (x.den : ℤ) < 2 * r then f + 1
  else if f % 2 = 0 then f else f + 1

/-- Python `round(x, 2)`. -/
def round2 (x : ℚ) : ℚ := (roundHalfEven (x * 100) : ℚ) / 100

/-- A calendar date as produced by `datetime.fromisoformat` on the
`YYYY-MM-DD` strings this repository exchanges. -/
structure Date where
  year : Nat
  month : Nat
  day : Nat
deriving DecidableEq, Repr

/-- Length of a month in the proleptic Gregorian calendar. -/
def daysInMonth (y m : Nat) : Nat :=
  if m = 2 then
    if y % 4 = 0 && (y % 100 ≠ 0 || y % 400 = 0) then 29 else 28
  else if m = 4 || m = 6 || m = 9 || m = 11 then 30
  else 31

/-- Validity as enforced by `datetime` (year 1–9999, real calendar day). -/
def Date.valid (d : Date) : Bool :=
  1 ≤ d.year && d.year ≤ 9999 && 1 ≤ d.month && d.month ≤ 12 &&
    1 ≤ d.day && d.day ≤ daysInMonth d.year d.month

/-- Proleptic Gregorian day number (days-from-civil); differences of this
value are exactly Python's `(a - b).days` for midnight datetimes. -/
def Date.dayNumber (dt : Date) : Nat :=
  let y := if dt.month ≤ 2 then dt.year - 1 else dt.year
  let era := y / 400
  let yoe := y % 400
  let mp := if 2 < dt.month then dt.month - 3 else dt.month + 9
  let doy := (153 * mp + 2) / 5 + (dt.day - 1)
  let doe := yoe * 365 + yoe / 4 + doy - yoe / 100
  era * 146097 + doe

/-- Day difference `(a - b).days` (as Python timedelta, for dates). -/
def dateDiffDays (a b : Date) : ℤ :=
  (a.dayNumber : ℤ) - (b.dayNumber : ℤ)

/-- Decimal digit value of a character, if any. -/
def digitVal (c : Char) : Option Nat :=
  if '0' ≤ c ∧ c ≤ '9' then some (c.toNat - '0'.toNat) else none

/-- Model of `datetime.fromisoformat` restricted to the `YYYY-MM-DD`
calendar-date strings this repository's data uses; anything else is a parse
failure (`none`), which the source's `except` branches or uncaught
exceptions handle. -/
def parseDateIso (s : String) : Option Date :=
  match s.data with
  | [y1, y2, y3, y4, h1, m1, m2, h2, d1, d2] =>
      if h1 = '-' ∧ h2 = '-' then
        match digitVal y1, digitVal y2, digitVal y3, digitVal y4,
              digitVal m1, digitVal m2, digitVal d1, digitVal d2 with
        | some a, some b, some c, some d, some e, some f, some g, some h =>
            let dt : Date := ⟨a * 1000 + b * 100 + c * 10 + d, e * 10 + f, g * 10 + h⟩
            if dt.valid then some dt else none
        | _, _, _, _, _, _, _, _ => none
      else none
  | _ => none

/-- Helper for `commaGroup`: walk the reversed digit list, inserting a comma
before every third digit. -/
def commaGroupAux : Nat → List Char → List Char
  | _, [] => []
  | k, c :: cs =>
      if k % 3 = 0 ∧ k ≠ 0 then ',' :: c :: commaGroupAux (k + 1) cs
      else c :: commaGroupAux (k + 1) cs

/-- Insert thousands separators into a digit string (format spec `,`). -/
def commaGroup (l : List Char) : List Char :=
  (commaGroupAux 0 l.reverse).reverse

/-- Python `f"{x:,.2f}"`: banker's rounding to cents, thousands separators,
two decimals. -/
def formatMoney (x : ℚ) : String :=
  let cents := roundHalfEven (x * 100)
  let sgn := if cents < 0 then "-" else ""
  let a := cents.natAbs
  let whole := commaGroup (Nat.repr (a / 100)).data
  sgn ++ ⟨whole⟩ ++ "." ++ zeroPad2 (a % 100)

namespace ReconciliationEngine

/-- The three score functions of the external `fuzzywuzzy` library
(`fuzz.ratio`, `fuzz.partial_ratio`, `fuzz.token_set_ratio`).  The library is
third-party, so it enters the model as an uninterpreted parameter; every
theorem below holds for arbitrary score functions. -/
structure Fuzz where
  ratio : String → String → Nat
  partRatio : String → String → Nat
  tokenSetRatio : String → String → Nat

/-- A bank transaction dict as consumed by the matcher.  `description` and
`amount` model `get('description', '')` / `get('amount', 0)`;
`is_credit` defaults to `True` in the source. -/
structure MTransaction where
  transactionId : Option String := none
  date : Option String := none
  amount : ℚ := 0
  description : String := ""
  isCredit : Bool := true
deriving DecidableEq, Repr

/-- An invoice dict as consumed by the matcher; `id` is accessed with
`invoice['id']` (required), the rest via `.get`. -/
structure MInvoice where
  id : String
  number : Option String := none
  amount : ℚ := 0
  createdDate : Option String := none
  companyName : String := ""
  status : String := ""
deriving DecidableEq, Repr

/-- An entry of `memory['denied_matches']`. -/
structure DeniedMatch where
  transactionDescription : String
  invoiceId : String
  deniedAt : String := ""
deriving DecidableEq, Repr

/-- An entry of `memory['accounted_transactions']`. -/
structure AccountedTransaction where
  transactionId : Option String := none
  transactionDescription : String
  amount : ℚ := 0
  date : String := ""
  companyName : String := ""
  invoiceId : Option String := none
  accountedAt : String := ""
deriving DecidableEq, Repr

/-- The engine's persistent memory document.  Associations are a Python dict
(insertion-ordered key/value list); the two other collections are
append-only lists. -/
structure Memory where
  associations : List (String × String) := []
  deniedMatches : List DeniedMatch := []
  accountedTransactions : List AccountedTransaction := []
deriving DecidableEq, Repr

/-- Python dict assignment `d[k] = v`: replace in place if present,
else append. -/
def setAssoc : List (String × String) → String → String → List (String × String)
  | [], k, v => [(k, v)]
  | (k', v') :: rest, k, v =>
      if k' = k then (k, v) :: rest else (k', v') :: setAssoc rest k v

/-- `_clean_company_name`: lowercase, strip legal suffixes as word-bounded
regex matches, replace `[^\w\s]` by spaces, collapse whitespace. -/
def cleanCompanyName (name : String) : String :=
  if name = "" then ""
  else
    let n := pyLower name
    let n := ["llc", "inc", "corp", "ltd", "co", "l.l.c.", "l.p.", "lp"].foldl
      scrubWordBounded n
    let n : String := ⟨n.data.map (fun c => if !(isWordChar c || isPySpace c) then ' ' else c)⟩
    pyStrip (normWs n)

/-- `learn_association`. -/
def learnAssociation (mem : Memory) (transactionName companyName : String) : Memory :=
  { mem with associations :=
      setAssoc mem.associations (cleanCompanyName transactionName) (cleanCompanyName companyName) }

/-- `is_match_denied`: is this EXACT transaction-invoice pair denied? -/
def isMatchDenied (mem : Memory) (transactionDescription invoiceId : String) : Bool :=
  mem.deniedMatches.any (fun d =>
    d.transactionDescription = transactionDescription && d.invoiceId = invoiceId)

/-- `deny_match`: idempotent append of a denial record (`now` stands for the
`datetime.now().isoformat()` timestamp). -/
def denyMatch (mem : Memory) (transactionDescription invoiceId : String) (now : String) : Memory :=
  if isMatchDenied mem transactionDescription invoiceId then mem
  else { mem with deniedMatches :=
          mem.deniedMatches ++ [⟨transactionDescription, invoiceId, now⟩] }

/-- `is_transaction_accounted`. -/
def isTransactionAccounted (mem : Memory) (transactionDescription : String) : Bool :=
  mem.accountedTransactions.any (fun a => a.transactionDescription = transactionDescription)

/-- `mark_transaction_accounted`: append unless a record with the same
description exists. -/
def markTransactionAccounted (mem : Memory) (transactionDescription : String)
    (transactionId : Option String) (amount : ℚ) (date companyName : String)
    (invoiceId : Option String) (now : String) : Memory :=
  if isTransactionAccounted mem transactionDescription then mem
  else { mem with accountedTransactions := mem.accountedTransactions ++
          [⟨transactionId, transactionDescription, amount, date, companyName, invoiceId, now⟩] }

/-- The memory-mutating operations of the engine's public interface, for
stating temporal claims over call sequences. -/
inductive Op where
  | deny (transactionDescription invoiceId now : String)
  | learn (transactionName companyName : String)
  | markAccounted (transactionDescription : String) (transactionId : Option String)
      (amount : ℚ) (date companyName : String) (invoiceId : Option String) (now : String)

/-- Apply one engine call to the memory. -/
def applyOp (mem : Memory) : Op → Memory
  | .deny d i n => denyMatch mem d i n
  | .learn t c => learnAssociation mem t c
  | .markAccounted d tid a dt cn iid n => markTransactionAccounted mem d tid a dt cn iid n

/-- Apply a sequence of engine calls to the memory. -/
def applyOps (mem : Memory) (ops : List Op) : Memory := ops.foldl applyOp mem

/-- A detected payment processor. -/
structure Processor where
  name : String
  feePercent : ℚ
  feeFixed : ℚ
deriving DecidableEq, Repr

/-- The `PROCESSORS` table (name, keywords, fee percent, fixed fee), in the
source's dict order. -/
def PROCESSORS : List (String × List String × ℚ × ℚ) :=
  [("stripe", (["stripe", "st-"], 35/10, 30/100)),
   ("avidpay", (["avidpay"], 1, 0)),
   ("ach", (["ach", "sec:ccd", "sec:ppd"], 0, 0)),
   ("wire", (["fedwire", "chips", "wire"], 0, 0)),
   ("rtp", (["real time payment"], 0, 0)),
   ("zelle", (["zelle"], 0, 0)),
   ("amex", (["american express"], 0, 0))]

/-- `detect_processor`: first processor one of whose keywords occurs in the
lowercased description. -/
def detectProcessor (t : MTransaction) : Option Processor :=
  let desc := pyLower t.description
  PROCESSORS.findSome? (fun p =>
    if p.2.1.any (fun kw => containsSub desc (pyLower kw)) then
      some ⟨p.1, p.2.2.1, p.2.2.2⟩
    else none)

/-- `calculate_expected_amount`: the invoice amount, fees deliberately not
deducted. -/
def calculateExpectedAmount (invoiceAmount : ℚ) (_processor : Option Processor) : ℚ :=
  invoiceAmount

/-- `_check_memory`: 100 iff some learned association's transaction token is
contained in the cleaned description and its company token in the cleaned
company name. -/
def checkMemory (mem : Memory) (t : MTransaction) (i : MInvoice) : ℚ :=
  let transDesc := cleanCompanyName t.description
  let companyName := cleanCompanyName i.companyName
  if mem.associations.any (fun a =>
      containsSub transDesc a.1 && containsSub companyName a.2) then 100 else 0

/-- `_match_amount_smart`: tiered score by absolute/percentage difference. -/
def matchAmountSmart (t : MTransaction) (i : MInvoice) : ℚ :=
  let transAmount := |t.amount|
  let invAmount := i.amount
  if transAmount = 0 ∨ invAmount = 0 then 0
  else
    let diff := |transAmount - invAmount|
    let diffPercent := diff / invAmount * 100
    if diff < 1 then 100
    else if diffPercent < 1 then 95
    else if diffPercent < 2 then 85
    else if diffPercent < 5 then 70
    else if diffPercent < 10 then 50
    else 0

/-- `_extract_company_core`: strip the upper-case suffix table by plain
string replacement, then collapse whitespace. -/
def extractCompanyCore (companyName : String) : String :=
  let suffixes := ["LLC", "INC", "CORP", "CORPORATION", "LTD", "LIMITED", "LP", "LLP",
    "OWNER", "OWNERS", "OWNERSHIP", "PROPERTIES", "PROPERTY", "PROP",
    "GROUP", "HOLDINGS", "HOLDING", "INVESTMENTS", "INVESTMENT", "INVEST",
    "MANAGEMENT", "MGMT", "MGT", "PARTNERS", "PARTNER", "ASSOCIATES", "ASSOC",
    "ENTERPRISES", "ENTERPRISE", "COMPANY", "CO", "REAL ESTATE", "REALTY",
    "DEVELOPMENT", "DEV", "CAPITAL", "CAP", "VENTURES", "VENTURE",
    "TRUST", "TR", "FUND", "FUNDS", "MF"]
  let core := suffixes.foldl (fun core suf =>
    let core := pyReplace core (" " ++ suf ++ " ") " "
    let core := pyReplace core (" " ++ suf) ""
    if pyEndsWith core suf then dropSuffixStr core suf else core) companyName
  pyStrip (normWs core)

/-- The `ignore_words` set of `_get_meaningful_words`. -/
def IGNORE_WORDS : List String :=
  ["LLC", "INC", "CORP", "LTD", "LP", "LLP",
   "THE", "OF", "AND", "AT", "IN", "ON", "FOR", "A", "AN",
   "OWNER", "OWNERS", "CO", "COMPANY",
   "PROPERTIES", "PROPERTY", "GROUP", "HOLDINGS",
   "MANAGEMENT", "MGMT", "PARTNERS", "ASSOCIATES",
   "INVESTMENTS", "INVESTMENT", "ENTERPRISES",
   "REAL", "ESTATE", "REALTY", "DEVELOPMENT",
   "CAPITAL", "VENTURES", "TRUST", "FUND"]

/-- `_get_meaningful_words` (a Python set, modelled as a deduplicated list
in first-occurrence order). -/
def getMeaningfulWords (companyName : String) : List String :=
  (pySetList (pySplit companyName)).filter (fun w => w ∉ IGNORE_WORDS)

/-- `_fuzzy_substring_match`: best `fuzz.ratio` of the needle against
sliding windows of up to four words of the haystack. -/
def fuzzySubstringMatch (fz : Fuzz) (needle haystack : String) : Nat :=
  if needle.data.length < 3 then 0
  else
    let words := pySplit haystack
    (List.range words.length).foldl (fun best i =>
      (List.range' (i + 1) (min (i + 5) (words.length + 1) - (i + 1))).foldl (fun best j =>
        let window := pyJoin " " ((words.drop i).take (j - i))
        if (needle.data.length : ℚ) * (7/10) ≤ (window.data.length : ℚ) then
          max best (fz.ratio needle window)
        else best) best) 0

/-- `_count_fuzzy_word_matches`. -/
def countFuzzyWordMatches (fz : Fuzz) (companyWords transWords : List String)
    (threshold : Nat) : Nat :=
  (companyWords.filter (fun cw =>
    cw ∉ transWords && 3 ≤ cw.data.length &&
      transWords.any (fun tw => 3 ≤ tw.data.length && threshold ≤ fz.ratio cw tw))).length

/-- `_match_names_smart`: the four-tier name score. -/
def matchNamesSmart (fz : Fuzz) (t : MTransaction) (i : MInvoice) : ℚ :=
  let transDesc := cleanCompanyName t.description
  let companyName := cleanCompanyName i.companyName
  if transDesc = "" ∨ companyName = "" then 0
  else
    let transDesc := PROCESSORS.foldl (fun d p => pyReplace d p.1 "") transDesc
    let transDesc := normWs transDesc
    let companyCore := extractCompanyCore companyName
    if 5 ≤ companyCore.data.length ∧ containsSub transDesc companyCore then 100
    else
      let fss := fuzzySubstringMatch fz companyCore transDesc
      if 90 ≤ fss then 98
      else if 80 ≤ fss then 92
      else
        let transWords := pySetList (pySplit transDesc)
        let meaningful := getMeaningfulWords companyName
        let tier3 : Option ℚ :=
          if meaningful ≠ [] then
            let exactMatches := meaningful.filter (fun w => w ∈ transWords)
            let fuzzyMatches := countFuzzyWordMatches fz meaningful transWords 80
            let matchRatio : ℚ := (exactMatches.length + fuzzyMatches : ℚ) / (meaningful.length : ℚ)
            if 9/10 ≤ matchRatio then some 95
            else if 3/4 ≤ matchRatio then some 90
            else if 1/2 ≤ matchRatio then some (75 + matchRatio * 20)
            else none
          else none
        match tier3 with
        | some r => r
        | none =>
            let ratio := fz.partRatio transDesc companyName
            let tokenRatio := fz.tokenSetRatio transDesc companyName
            let bestRatio := max ratio tokenRatio
            if containsSub transDesc companyName || containsSub companyName transDesc then
              min 100 ((bestRatio : ℚ) + 20)
            else (bestRatio : ℚ)

/-- `_match_dates`: tiered score by days between transaction date and
invoice creation; missing or unparseable dates score the neutral 20. -/
def matchDates (t : MTransaction) (i : MInvoice) : ℚ :=
  let transDateStr := (t.date).getD ""
  let invCreatedStr := (i.createdDate).getD ""
  if transDateStr = "" ∨ invCreatedStr = "" then 20
  else
    match parseDateIso transDateStr, parseDateIso invCreatedStr with
    | some transDate, some invCreated =>
        let daysDiff := dateDiffDays transDate invCreated
        if daysDiff < 0 then 0
        else if daysDiff ≤ 30 then 100
        else if daysDiff ≤ 60 then 90
        else if daysDiff ≤ 90 then 80
        else if daysDiff ≤ 120 then 60
        else 30
    | _, _ => 20

/-- `_match_invoice_number`: 100 iff the invoice number is a literal
substring of the uppercased description. -/
def matchInvoiceNumber (t : MTransaction) (i : MInvoice) : ℚ :=
  let transDesc := pyUpper t.description
  let invoiceNum := pyUpper (i.number.getD "")
  if invoiceNum ≠ "" ∧ containsSub transDesc invoiceNum then 100 else 0

/-- `_calculate_confidence_smart`: fast path for strong name+amount, else a
weighted blend, +5 for a detected processor, rounded to two decimals. -/
def calculateConfidenceSmart (memoryMatch amountMatch nameMatch dateMatch invoiceNumMatch : ℚ)
    (processor : Option Processor) : ℚ :=
  if 95 ≤ nameMatch ∧ 90 ≤ amountMatch then
    min 100 (85 + nameMatch * (1/10) + amountMatch * (5/100))
  else
    let wm : ℚ := if 0 < memoryMatch then 50/100 else 0
    let wa : ℚ := if 0 < memoryMatch then 30/100 else 35/100
    let wn : ℚ := if 0 < memoryMatch then 10/100 else 40/100
    let wd : ℚ := if 0 < memoryMatch then 5/100 else 15/100
    let wi : ℚ := if 0 < memoryMatch then 5/100 else 10/100
    let score := memoryMatch * wm + amountMatch * wa + nameMatch * wn +
      dateMatch * wd + invoiceNumMatch * wi
    let score := if processor.isSome then min 100 (score + 5) else score
    round2 score

/-- The per-candidate `reasons` dict. -/
structure MatchReasons where
  memoryMatch : ℚ
  amountMatch : ℚ
  nameMatch : ℚ
  dateMatch : ℚ
  invoiceNumMatch : ℚ
  processorDetected : Option String
deriving DecidableEq, Repr

/-- A scoring candidate of `_find_best_match`. -/
structure Candidate where
  invoice : MInvoice
  confidence : ℚ
  processor : Option Processor
  reasons : MatchReasons
deriving DecidableEq, Repr

/-- A returned match record. -/
structure Match where
  transactionId : Option String
  transactionDate : Option String
  transactionAmount : ℚ
  transactionDescription : String
  invoiceId : String
  invoiceNumber : Option String
  invoiceAmount : ℚ
  invoiceDate : Option String
  companyName : String
  confidence : ℚ
  processor : String
  expectedAmount : ℚ
  matchReasons : MatchReasons
deriving DecidableEq, Repr

/-- `candidates.sort(key=lambda x: x.confidence, reverse=True)` followed by
`candidates[0]`: the stable descending sort makes this the earliest
candidate of maximal confidence. -/
def pickBest : List Candidate → Option Candidate
  | [] => none
  | c :: cs =>
      match pickBest cs with
      | none => some c
      | some b => if c.confidence < b.confidence then some b else some c

/-- The loop body of `_find_best_match`: score one invoice against the
transaction, skipping denied pairs and candidates at confidence 50 or
below. -/
def scoreCandidate (fz : Fuzz) (mem : Memory) (processor : Option Processor)
    (transactionDesc : String) (t : MTransaction) (invoice : MInvoice) : Option Candidate :=
  if isMatchDenied mem transactionDesc invoice.id then none
  else
    let memoryMatch := checkMemory mem t invoice
    let amountMatch := matchAmountSmart t invoice
    let nameMatch := matchNamesSmart fz t invoice
    let dateMatch := matchDates t invoice
    let invoiceNumMatch := matchInvoiceNumber t invoice
    let confidence := calculateConfidenceSmart memoryMatch amountMatch nameMatch
      dateMatch invoiceNumMatch processor
    if 50 < confidence then
      some ⟨invoice, confidence, processor,
        ⟨memoryMatch, amountMatch, nameMatch, dateMatch, invoiceNumMatch,
          processor.map Processor.name⟩⟩
    else none

/-- `_find_best_match`. -/
def findBestMatch (fz : Fuzz) (mem : Memory) (t : MTransaction)
    (invoices : List MInvoice) : Option Match :=
  let processor := detectProcessor t
  let transactionDesc := t.description
  let candidates := invoices.filterMap (scoreCandidate fz mem processor transactionDesc t)
  (pickBest candidates).map (fun best =>
    { transactionId := t.transactionId
      transactionDate := t.date
      transactionAmount := t.amount
      transactionDescription := t.description
      invoiceId := best.invoice.id
      invoiceNumber := best.invoice.number
      invoiceAmount := best.invoice.amount
      invoiceDate := best.invoice.createdDate
      companyName := best.invoice.companyName
      confidence := best.confidence
      processor := (best.processor.map Processor.name).getD "direct"
      expectedAmount := calculateExpectedAmount best.invoice.amount best.processor
      matchReasons := best.reasons })

/-- The transaction loop of `match_transactions_to_invoices`, carrying the
`matched_invoices` set. -/
def matchLoop (fz : Fuzz) (mem : Memory) (unpaidInvoices : List MInvoice)
    (confidenceThreshold : ℚ) : List String → List MTransaction → List Match
  | _, [] => []
  | matchedInvoices, t :: ts =>
      if t.amount ≤ 0 then matchLoop fz mem unpaidInvoices confidenceThreshold matchedInvoices ts
      else if ¬ t.isCredit then matchLoop fz mem unpaidInvoices confidenceThreshold matchedInvoices ts
      else if isTransactionAccounted mem t.description then
        matchLoop fz mem unpaidInvoices confidenceThreshold matchedInvoices ts
      else
        let available := unpaidInvoices.filter (fun inv => inv.id ∉ matchedInvoices)
        match findBestMatch fz mem t available with
        | some m =>
            if confidenceThreshold ≤ m.confidence then
              m :: matchLoop fz mem unpaidInvoices confidenceThreshold
                (m.invoiceId :: matchedInvoices) ts
            else matchLoop fz mem unpaidInvoices confidenceThreshold matchedInvoices ts
        | none => matchLoop fz mem unpaidInvoices confidenceThreshold matchedInvoices ts

/-- `match_transactions_to_invoices`. -/
def matchTransactionsToInvoices (fz : Fuzz) (mem : Memory)
    (transactions : List MTransaction) (invoices : List MInvoice)
    (confidenceThreshold : ℚ) : List Match :=
  let unpaidInvoices := invoices.filter (fun inv =>
    pyUpper inv.status ∈ (["UNPAID", "OPEN", "OUTSTANDING", ""] : List String))
  matchLoop fz mem unpaidInvoices confidenceThreshold [] transactions

end ReconciliationEngine

namespace KlausEngine

/-- The engine configuration (`klaus_config.json` with the source's default
values; `email_signature` is the one field of `klaus_persona` the analysed
code reads, with the source's fallback resolved). -/
structure KlausConfig where
  highValueThreshold : ℚ := 5000
  autoApprovalEnabled : Bool := true
  daysUntilFirstReminder : ℤ := 7
  daysBetweenReminders : ℤ := 7
  maxAutonomousReminders : Nat := 3
  escalationDays : List ℤ := [7, 14, 21, 30, 45, 60]
  blacklistedContacts : List String := []
  vipContacts : List String := []
  emailSignature : String := "Klaus\nAccounts Receivable Specialist\nLeverage Live Local\n\nPhone: 305-209-7218\nEmail: klaus@leveragelivelocal.com"
deriving DecidableEq

/-- A persisted communication-history record. -/
structure CommRecord where
  invoiceId : String
  companyName : String
  method : String := ""
  messageType : String := ""
  sentAt : String
  approvedBy : Option String := none
deriving DecidableEq, Repr

/-- A HubSpot invoice dict as consumed by `analyze_invoice`; every field the
code reads through `.get` is optional.  `balance_due` is modelled as a
number (`float(invoice.get('balance_due', 0))`). -/
structure Invoice where
  id : Option String := none
  balanceDue : ℚ := 0
  dueDate : Option String := none
  companyName : Option String := none
  contactName : Option String := none
  recipientName : Option String := none
  hsContactName : Option String := none
  toName : Option String := none
  hsContactFirstname : Option String := none
  hsContactLastname : Option String := none
  contactEmail : Option String := none
  recipientEmail : Option String := none
  hsContactEmail : Option String := none
  toEmail : Option String := none
  email : Option String := none
  hsInvoiceNumber : Option String := none
  hsNumber : Option String := none
  invoiceNumberField : Option String := none
  numberField : Option String := none
  propertiesHsInvoiceNumber : Option String := none
deriving DecidableEq

/-- `_extract_invoice_number`. -/
def extractInvoiceNumber (invoice : Invoice) : String :=
  let invoiceNumber := pyOr invoice.hsInvoiceNumber (pyOr invoice.hsNumber
    (pyOr invoice.invoiceNumberField (pyOr invoice.numberField invoice.id)))
  let short :=
    if pyTruthy invoiceNumber ∧ 6 < (invoiceNumber.getD "").data.length then
      [invoice.hsInvoiceNumber, invoice.hsNumber, invoice.propertiesHsInvoiceNumber].findSome?
        (fun v => if pyTruthy v ∧ (v.getD "").data.length ≤ 6 then some (v.getD "") else none)
    else none
  match short with
  | some s => s
  | none => if pyTruthy invoiceNumber then invoiceNumber.getD "" else "Unknown"

/-- `_combine_name` (Python truthiness on both parts). -/
def combineName (first last : Option String) : Option String :=
  if pyTruthy first && pyTruthy last then some ((first.getD "") ++ " " ++ (last.getD ""))
  else if pyTruthy first then first
  else if pyTruthy last then last
  else none

/-- `_extract_contact_name`. -/
def extractContactName (invoice : Invoice) : String :=
  let name := pyOr invoice.contactName (pyOr invoice.recipientName (pyOr invoice.hsContactName
    (pyOr invoice.toName (pyOr (combineName invoice.hsContactFirstname invoice.hsContactLastname)
      (some (invoice.companyName.getD "Unknown"))))))
  pyStrip (name.getD "")

/-- `_extract_contact_email`. -/
def extractContactEmail (invoice : Invoice) : String :=
  let email := pyOr invoice.contactEmail (pyOr invoice.recipientEmail (pyOr invoice.hsContactEmail
    (pyOr invoice.toEmail (pyOr invoice.email (some "unknown")))))
  pyLower (pyStrip (email.getD ""))

/-- `_extract_first_name`. -/
def extractFirstName (fullName : String) : String :=
  if fullName = "" ∨ fullName = "Unknown" then ""
  else if (["LLC", "INC", "CORP", "LTD", "LP"] : List String).any
      (fun suf => containsSub (pyUpper fullName) suf) then ""
  else
    match pySplit (pyStrip fullName) with
    | [] => ""
    | p :: _ => p

/-- `_get_contact_history`: records whose `invoice_id` equals this invoice's
id (a missing id, Python `None`, matches nothing). -/
def getContactHistory (hist : List CommRecord) (invoiceId : Option String) : List CommRecord :=
  hist.filter (fun c => invoiceId = some c.invoiceId)

/-- Code-point comparison of strings (Python string `<`). -/
def charListLt : List Char → List Char → Bool
  | [], [] => false
  | [], _ :: _ => true
  | _ :: _, [] => false
  | a :: as, b :: bs =>
      if a.toNat < b.toNat then true
      else if b.toNat < a.toNat then false
      else charListLt as bs

/-- Python string `<`. -/
def strLtB (a b : String) : Bool := charListLt a.data b.data

/-- Stable insertion for a descending sort by `sent_at`
(`sorted(..., key=sent_at, reverse=True)`). -/
def insertDescBySentAt (x : CommRecord) : List CommRecord → List CommRecord
  | [] => [x]
  | y :: ys => if strLtB y.sentAt x.sentAt then x :: y :: ys else y :: insertDescBySentAt x ys

/-- English month name (`%B`). -/
def monthName : Nat → String
  | 1 => "January" | 2 => "February" | 3 => "March" | 4 => "April"
  | 5 => "May" | 6 => "June" | 7 => "July" | 8 => "August"
  | 9 => "September" | 10 => "October" | 11 => "November" | 12 => "December"
  | _ => ""

/-- `strftime('%B %d, %Y')`. -/
def strftimeBdY (d : Date) : String :=
  monthName d.month ++ " " ++ zeroPad2 d.day ++ ", " ++ zeroPad4 d.year

/-- `strftime('%m/%d/%Y')`. -/
def strftimeMdY (d : Date) : String :=
  zeroPad2 d.month ++ "/" ++ zeroPad2 d.day ++ "/" ++ zeroPad4 d.year

/-- `_format_contact_history`: five most recent contacts, newest first,
each on a numbered line; unparseable timestamps render as
`Previous contact`. -/
def formatContactHistory (previousContacts : List CommRecord) : String :=
  if previousContacts.isEmpty then ""
  else
    let sortedContacts := previousContacts.foldl (fun acc c => insertDescBySentAt c acc) []
    let top := sortedContacts.take 5
    let lines := ((List.range' 1 top.length).zip top).map (fun p =>
      match parseDateIso p.2.sentAt with
      | some d => "  " ++ Nat.repr p.1 ++ ". " ++ strftimeBdY d
      | none => "  " ++ Nat.repr p.1 ++ ". Previous contact")
    pyJoin "\n" lines

/-- The per-invoice decision fields computed by the rule block of
`analyze_invoice` (lines 202–252): base rules, 60-day override, high-value
override, blacklist, VIP — in source order.  `daysSinceLast` is only
reached by the source when `contactCount > 0`. -/
structure Decision where
  actionRequired : String
  urgency : String
  escalationLevel : Nat
  requiresApproval : Bool
deriving DecidableEq, Repr

/-- The decision rules of `analyze_invoice`. -/
def analyzeDecision (cfg : KlausConfig) (daysOverdue : ℤ) (contactCount : Nat)
    (daysSinceLast : ℤ) (balanceDue : ℚ) (companyName : String) : Decision :=
  let d0 : Decision := ⟨"none", "low", 0, false⟩
  let d1 :=
    if cfg.daysUntilFirstReminder ≤ daysOverdue ∧ contactCount = 0 then
      (⟨"email", "low", 1, false⟩ : Decision)
    else if 0 < contactCount then
      if cfg.daysBetweenReminders ≤ daysSinceLast then
        if contactCount < cfg.maxAutonomousReminders then
          ⟨"email", "medium", contactCount + 1, false⟩
        else if cfg.highValueThreshold ≤ balanceDue then ⟨"call", "high", 4, true⟩
        else ⟨"escalate", "high", 4, true⟩
      else d0
    else d0
  let d2 :=
    if 60 ≤ daysOverdue then
      { d1 with actionRequired := "escalate", urgency := "critical",
                escalationLevel := 5, requiresApproval := true }
    else d1
  let d3 :=
    if cfg.highValueThreshold ≤ balanceDue ∧ d2.actionRequired = "call" then
      { d2 with requiresApproval := true }
    else d2
  let d4 :=
    if companyName ∈ cfg.blacklistedContacts then
      { d3 with actionRequired := "none", requiresApproval := true }
    else d3
  if companyName ∈ cfg.vipContacts then { d4 with requiresApproval := true } else d4

/-- The per-invoice analysis dict returned by `analyze_invoice`. -/
structure Analysis where
  invoiceId : Option String
  invoiceNumber : String
  companyName : String
  contactName : String
  contactEmail : String
  amount : ℚ
  balanceDue : ℚ
  daysOverdue : ℤ
  dueDate : Option String
  actionRequired : String
  urgency : String
  requiresApproval : Bool
  escalationLevel : Nat
  contactCount : Nat
  lastContactDate : Option String
  previousContacts : List String
deriving DecidableEq, Repr

/-- `analyze_invoice`.  The single uncaught exception site of the source is
modelled by the `Except` error: `datetime.fromisoformat(last_contact
['sent_at'])` at line 216 is not inside a `try`, so an unparseable
`sent_at` raises `ValueError` whenever the follow-up branch is reached. -/
def analyzeInvoice (cfg : KlausConfig) (hist : List CommRecord) (now : Date)
    (invoice : Invoice) : Except String Analysis :=
  let invoiceId := invoice.id
  let invoiceNumber := extractInvoiceNumber invoice
  let balanceDue := invoice.balanceDue
  let dueDate := invoice.dueDate
  let companyName := invoice.companyName.getD "Unknown"
  let contactName := extractContactName invoice
  let contactEmail := extractContactEmail invoice
  let daysOverdue : ℤ :=
    if pyTruthy dueDate then
      match parseDateIso (dueDate.getD "") with
      | some dueDt => dateDiffDays now dueDt
      | none => 0
    else 0
  let previousContacts := getContactHistory hist invoiceId
  let contactCount := previousContacts.length
  let lastContact := previousContacts.getLast?
  let daysSinceLast : Except String ℤ :=
    if ¬ (cfg.daysUntilFirstReminder ≤ daysOverdue ∧ contactCount = 0) ∧ 0 < contactCount then
      match lastContact with
      | some lc =>
          match parseDateIso lc.sentAt with
          | some d => .ok (dateDiffDays now d)
          | none => .error "ValueError: invalid isoformat string in communication history"
      | none => .ok 0
    else .ok 0
  daysSinceLast.map (fun dsl =>
    let dec := analyzeDecision cfg daysOverdue contactCount dsl balanceDue companyName
    { invoiceId := invoiceId
      invoiceNumber := invoiceNumber
      companyName := companyName
      contactName := contactName
      contactEmail := contactEmail
      amount := balanceDue
      balanceDue := balanceDue
      daysOverdue := daysOverdue
      dueDate := dueDate
      actionRequired := dec.actionRequired
      urgency := dec.urgency
      requiresApproval := dec.requiresApproval
      escalationLevel := dec.escalationLevel
      contactCount := contactCount
      lastContactDate := lastContact.map CommRecord.sentAt
      previousContacts := previousContacts.map CommRecord.sentAt })

/-- Maximum of an integer list, first element as base (`max(...)` over a
non-empty Python generator). -/
def maxOfZ : List ℤ → ℤ
  | [] => 0
  | x :: xs => xs.foldl max x

/-- Maximum of a `Nat` list, first element as base. -/
def maxOfN : List Nat → Nat
  | [] => 0
  | x :: xs => xs.foldl max x

/-- Stable insertion for the descending sort of invoices by `days_overdue`
in `_generate_consolidated_message`. -/
def insertDescByDaysOverdue (x : Analysis) : List Analysis → List Analysis
  | [] => [x]
  | y :: ys =>
      if y.daysOverdue < x.daysOverdue then x :: y :: ys
      else y :: insertDescByDaysOverdue x ys

/-- `sorted(invoices, key=days_overdue, reverse=True)` (stable). -/
def sortDescByDaysOverdue (l : List Analysis) : List Analysis :=
  l.foldl (fun acc x => insertDescByDaysOverdue x acc) []

/-- `_generate_vip_message` (no threats, professional tone): the three VIP
template tiers, transcribed literally. -/
def generateVipMessage (greeting : String) (companies : List String) (invoiceCount : Nat)
    (invoiceTable : String) (totalBalance : ℚ) (oldestDays : ℤ) (escalationLevel : Nat)
    (contactHistory : String) (signature : String) : String :=
  let plural := if 1 < invoiceCount then "invoices" else "invoice"
  let companiesStr :=
    if companies.length ≤ 3 then pyJoin ", " companies
    else (companies.get? 0).getD "" ++ ", " ++ (companies.get? 1).getD "" ++ ", and " ++
      Nat.repr (companies.length - 2) ++ " other properties"
  if escalationLevel ≤ 2 then
    "Subject: Outstanding Invoices - " ++
      (if companies.length = 1 then (companies.get? 0).getD "" else "Multiple Properties") ++
    "\n\n" ++ greeting ++
    "\n\nI wanted to reach out regarding some outstanding " ++ plural ++
    " across your properties. I know you're managing " ++ companiesStr ++
    ", so I've consolidated everything here for your review.\n\nOutstanding Invoices:\n" ++
    invoiceTable ++ "\n\nTotal Outstanding: $" ++ formatMoney totalBalance ++
    "\n\nI wanted to make sure these are on your radar. If you need any documentation or have questions about any of these invoices, I'm happy to help.\n\nLooking forward to hearing from you.\n\nBest regards,\n" ++
    signature
  else if escalationLevel ≤ 4 then
    let historySection :=
      if contactHistory ≠ "" then
        "\nI've reached out a couple times:\n" ++ contactHistory ++ "\n\n"
      else ""
    "Subject: Following Up - Outstanding Invoices\n\n" ++ greeting ++
    "\n\nI wanted to follow up regarding the outstanding " ++ plural ++ " across " ++
    companiesStr ++ ". " ++ historySection ++
    "I know managing multiple properties keeps you busy, so I've consolidated everything in one place:\n\nOutstanding Invoices:\n" ++
    invoiceTable ++ "\n\nTotal Outstanding: $" ++ formatMoney totalBalance ++
    "\nOldest Invoice: " ++ Int.repr oldestDays ++
    " days past due\n\nI understand cash flow timing can be challenging with multiple properties. Could we schedule a quick call to discuss payment timing? I want to make sure we're aligned and can support you however needed.\n\nYou can reach me directly at 305-209-7218.\n\nBest regards,\n" ++
    signature
  else
    let historySection :=
      if contactHistory ≠ "" then
        "\nPrevious contact attempts:\n" ++ contactHistory ++ "\n\n"
      else ""
    "Subject: Important - Outstanding Balance Requiring Attention\n\n" ++ greeting ++
    "\n\nI need to bring some outstanding " ++ plural ++ " to your attention. " ++
    historySection ++
    "These invoices have been pending for some time:\n\nOutstanding Invoices:\n" ++
    invoiceTable ++ "\n\nTotal Outstanding: $" ++ formatMoney totalBalance ++
    "\nOldest Invoice: " ++ Int.repr oldestDays ++
    " days past due\n\nI'd really appreciate if we could get these resolved. I understand things get busy managing multiple properties, but this balance is significantly overdue and needs attention.\n\nCan we schedule a call this week to discuss? I'm available at your convenience and want to work with you to get this sorted out.\n\nPlease call me at 305-209-7218 or reply to this email.\n\nBest regards,\n" ++
    signature

/-- `_generate_standard_message`: the five standard template tiers,
transcribed literally. -/
def generateStandardMessage (greeting : String) (_companies : List String) (invoiceCount : Nat)
    (invoiceTable : String) (totalBalance : ℚ) (oldestDays : ℤ) (escalationLevel : Nat)
    (contactHistory : String) (signature : String) : String :=
  let plural := if 1 < invoiceCount then "invoices" else "invoice"
  let pluralTitle := if 1 < invoiceCount then "Invoices" else "Invoice"
  if escalationLevel = 1 then
    let hasHistory := contactHistory ≠ ""
    let intro :=
      if hasHistory then
        "I wanted to follow up regarding " ++ Nat.repr invoiceCount ++ " outstanding " ++
        plural ++ " with a total balance of $" ++ formatMoney totalBalance ++ "."
      else
        "I hope this message finds you well. I'm reaching out regarding " ++
        Nat.repr invoiceCount ++ " outstanding " ++ plural ++
        " with a total balance of $" ++ formatMoney totalBalance ++ "."
    "Subject: Payment Reminder - " ++ Nat.repr invoiceCount ++ " Outstanding " ++ pluralTitle ++
    "\n\n" ++ greeting ++ "\n\n" ++ intro ++
    "\n\nOutstanding Invoices:\n" ++ invoiceTable ++
    "\n\nTotal Amount Due: $" ++ formatMoney totalBalance ++
    "\n\nWe haven't received payment yet and wanted to check if there's anything preventing payment from being processed. If you need any documentation (W-9, certificate of insurance, etc.), I'm happy to provide those right away.\n\nPlease let me know if you have any questions or if there's anything I can help with.\n\nBest regards,\n" ++
    signature
  else if escalationLevel = 2 then
    let hasHistory := contactHistory ≠ ""
    let followup :=
      if hasHistory then
        "We sent a reminder last week but haven't heard back. I want to make sure everything is in order on your end."
      else
        "I want to make sure everything is in order on your end and that you received these invoices."
    "Subject: Follow-up - " ++ Nat.repr invoiceCount ++ " Outstanding " ++ pluralTitle ++
    "\n\n" ++ greeting ++
    "\n\nI wanted to follow up on the following outstanding " ++ plural ++ ":\n\n" ++
    invoiceTable ++ "\n\nTotal Amount Due: $" ++ formatMoney totalBalance ++ "\n\n" ++ followup ++
    "\n\nIs there anything blocking payment? I'm here to help resolve any issues.\n\nBest regards,\n" ++
    signature
  else if escalationLevel = 3 then
    let historySection :=
      if contactHistory ≠ "" then "\nPrevious contact attempts:\n" ++ contactHistory ++ "\n\n"
      else ""
    let contactLanguage :=
      if contactHistory ≠ "" then
        "We've reached out multiple times but haven't received payment or a response."
      else
        "These invoices are significantly overdue and we haven't received payment or a response."
    "Subject: Important - " ++ Nat.repr invoiceCount ++ " Overdue " ++ pluralTitle ++
    " Require Attention\n\n" ++ greeting ++
    "\n\nI'm writing regarding " ++ Nat.repr invoiceCount ++ " overdue " ++ plural ++
    ", with the oldest now " ++ Int.repr oldestDays ++ " days past due:\n\n" ++
    invoiceTable ++ "\n\nTotal Amount Due: $" ++ formatMoney totalBalance ++ "\n" ++
    historySection ++ contactLanguage ++
    " I'd like to resolve this quickly to avoid any impact on our continued service.\n\nCould you please provide an update on when we can expect payment, or let me know if there's a specific issue preventing payment?\n\nI'm available to discuss this directly at 305-209-7218 if that would be helpful.\n\nBest regards,\n" ++
    signature
  else if escalationLevel = 4 then
    let historySection :=
      if contactHistory ≠ "" then "\nPrevious contact attempts:\n" ++ contactHistory ++ "\n\n"
      else ""
    let urgencyLanguage :=
      if contactHistory ≠ "" then "Despite multiple reminders, the following" else "The following"
    "Subject: URGENT - " ++ Nat.repr invoiceCount ++ " Overdue " ++ pluralTitle ++
    " Require Immediate Attention\n\n" ++ greeting ++ "\n\n" ++
    urgencyLanguage ++ " " ++ plural ++ " remain unpaid:\n\n" ++
    invoiceTable ++ "\n\nTotal Amount Due: $" ++ formatMoney totalBalance ++
    "\nOldest Invoice: " ++ Int.repr oldestDays ++ " days overdue\n" ++ historySection ++
    "This is significantly overdue and requires immediate attention. If we don't receive payment or establish a payment plan within 7 days, we will need to suspend services.\n\nPlease contact me immediately at 305-209-7218 to resolve this matter.\n\nBest regards,\n" ++
    signature
  else
    let historySection :=
      if contactHistory ≠ "" then "\nPrevious contact attempts:\n" ++ contactHistory ++ "\n\n"
      else ""
    let attemptsLanguage :=
      if contactHistory ≠ "" then "Despite our repeated attempts to reach you, these" else "These"
    "Subject: FINAL NOTICE - " ++ Nat.repr invoiceCount ++ " Severely Overdue " ++ pluralTitle ++
    "\n\n" ++ greeting ++
    "\n\nThis is a final notice regarding the following severely overdue " ++ plural ++ ":\n\n" ++
    invoiceTable ++ "\n\nTotal Amount Due: $" ++ formatMoney totalBalance ++
    "\nOldest Invoice: " ++ Int.repr oldestDays ++ " days overdue\n" ++ historySection ++
    attemptsLanguage ++
    " invoices remain unpaid. This requires immediate resolution.\n\nWithout payment or a commitment to a payment plan within 48 hours, we will be forced to suspend all services.\n\nPlease contact me immediately at 305-209-7218 or reply to this email to avoid service interruption.\n\nBest regards,\n" ++
    signature

/-- `_generate_consolidated_message`: build the greeting, totals, sorted
invoice table and contact-history block, then dispatch on `is_vip` (the
code after the two `return`s at lines 367–390 is unreachable). -/
def generateConsolidatedMessage (cfg : KlausConfig) (contactName : String)
    (companies : List String) (invoices : List Analysis) (escalationLevel : Nat)
    (allCompanyContacts : List CommRecord) (isVip : Bool) : String :=
  let signature := cfg.emailSignature
  let firstName := extractFirstName contactName
  let greeting := if firstName ≠ "" then "Hi " ++ firstName ++ "," else "Hi,"
  let totalBalance := (invoices.map Analysis.balanceDue).foldl (· + ·) 0
  let oldestDays := maxOfZ (invoices.map Analysis.daysOverdue)
  let invoiceCount := invoices.length
  let sortedInvoices := sortDescByDaysOverdue invoices
  let invoiceLines := sortedInvoices.map (fun inv =>
    let dueDateStr :=
      if pyTruthy inv.dueDate then
        match parseDateIso (inv.dueDate.getD "") with
        | some d => strftimeMdY d
        | none => "Unknown"
      else ""
    let companyStr :=
      if 1 < companies.length then " | " ++ (⟨inv.companyName.data.take 25⟩ : String) else ""
    "  Invoice " ++ pyRjust 6 inv.invoiceNumber ++ " | " ++
    "Due: " ++ pyRjust 10 dueDateStr ++ " | " ++
    pyRjust 3 (Int.repr inv.daysOverdue) ++ " days overdue | " ++
    "$" ++ pyRjust 10 (formatMoney inv.balanceDue) ++ companyStr)
  let invoiceTable := pyJoin "\n" invoiceLines
  let contactHistory := formatContactHistory allCompanyContacts
  if isVip then
    generateVipMessage greeting companies invoiceCount invoiceTable totalBalance oldestDays
      escalationLevel contactHistory signature
  else
    generateStandardMessage greeting companies invoiceCount invoiceTable totalBalance oldestDays
      escalationLevel contactHistory signature

/-- A consolidated `EscalationAction`. -/
structure EscalationAction where
  contactName : String
  contactEmail : String
  companies : List String
  invoiceCount : Nat
  invoices : List Analysis
  totalBalance : ℚ
  oldestDaysOverdue : ℤ
  escalationLevel : Nat
  requiresApproval : Bool
  isVip : Bool
  recommendedMessage : String
  actionRequired : String
deriving DecidableEq, Repr

/-- The summary dict returned by `analyze_overdue_invoices`. -/
structure AnalysisSummary where
  totalAnalyzed : Nat
  totalContacts : Nat
  autonomousEmails : List EscalationAction
  autonomousCalls : List EscalationAction
  pendingApprovals : List EscalationAction
  noActionCount : Nat
  contactsToEmail : Nat
  contactsNeedApproval : Nat
  invoicesNoAction : Nat
deriving DecidableEq, Repr

/-- Append an analysis to its contact group (`by_contact[key].append`),
preserving defaultdict insertion order of keys. -/
def groupUpdate (key : String) (a : Analysis) :
    List (String × List Analysis) → List (String × List Analysis)
  | [] => [(key, [a])]
  | (k, l) :: rest =>
      if k = key then (k, l ++ [a]) :: rest else (k, l) :: groupUpdate key a rest

/-- The grouping loop of `analyze_overdue_invoices`: actionable analyses
grouped by contact email, falling back to company name when the email is
`'unknown'`. -/
def byContact (analyses : List Analysis) : List (String × List Analysis) :=
  analyses.foldl (fun acc a =>
    if a.actionRequired ≠ "none" then
      let key := if a.contactEmail ≠ "unknown" then a.contactEmail else a.companyName
      groupUpdate key a acc
    else acc) []

/-- `for c in all_contact_history: unique_contacts[c['sent_at']] = c;
list(unique_contacts.values())`: per `sent_at` key the last write wins, keys
in first-insertion order. -/
def dedupBySentAt (l : List CommRecord) : List CommRecord :=
  (pySetList (l.map CommRecord.sentAt)).filterMap
    (fun k => l.reverse.find? (fun c => c.sentAt = k))

/-- Build the consolidated action for one contact group. -/
def buildAction (cfg : KlausConfig) (hist : List CommRecord)
    (group : String × List Analysis) : EscalationAction :=
  let contactInvoices := group.2
  let maxEscalation := maxOfN (contactInvoices.map Analysis.escalationLevel)
  let requiresApproval := contactInvoices.any Analysis.requiresApproval
  let totalBalance := (contactInvoices.map Analysis.balanceDue).foldl (· + ·) 0
  let contactName := match contactInvoices with | [] => "" | f :: _ => f.contactName
  let contactEmail := match contactInvoices with | [] => "unknown" | f :: _ => f.contactEmail
  let isVip := contactInvoices.any (fun inv =>
    cfg.vipContacts.any (fun kw => containsSub (pyUpper inv.companyName) (pyUpper kw)))
  let allContactHistory := contactInvoices.foldl
    (fun acc inv => acc ++ getContactHistory hist inv.invoiceId) []
  let companyContacts := dedupBySentAt allContactHistory
  let companies := pySetList (contactInvoices.map Analysis.companyName)
  let consolidatedMessage := generateConsolidatedMessage cfg contactName companies
    contactInvoices maxEscalation companyContacts isVip
  { contactName := contactName
    contactEmail := contactEmail
    companies := companies
    invoiceCount := contactInvoices.length
    invoices := contactInvoices
    totalBalance := totalBalance
    oldestDaysOverdue := maxOfZ (contactInvoices.map Analysis.daysOverdue)
    escalationLevel := maxEscalation
    requiresApproval := requiresApproval
    isVip := isVip
    recommendedMessage := consolidatedMessage
    actionRequired :=
      if contactInvoices.any (fun inv => inv.actionRequired = "call") then "call" else "email" }

/-- The pure computation of `analyze_overdue_invoices`: per-invoice
analyses (any raised exception propagates), contact grouping, one
consolidated action per group, bucketed into autonomous emails/calls and
pending approvals.  Returns the new `_pending_approvals` list and the
summary dict. -/
def analyzeOverdueInvoicesCore (cfg : KlausConfig) (hist : List CommRecord) (now : Date)
    (invoices : List Invoice) : Except String (List EscalationAction × AnalysisSummary) :=
  match invoices.mapM (analyzeInvoice cfg hist now) with
  | .error e => .error e
  | .ok allAnalyses =>
      let groups := byContact allAnalyses
      let actions := groups.map (buildAction cfg hist)
      let pendingApprovals := actions.filter EscalationAction.requiresApproval
      let autonomousEmails := actions.filter
        (fun a => ¬ a.requiresApproval ∧ a.actionRequired = "email")
      let autonomousCalls := actions.filter
        (fun a => ¬ a.requiresApproval ∧ a.actionRequired = "call")
      let noActionInvoices := allAnalyses.filter (fun a => a.actionRequired = "none")
      .ok (pendingApprovals,
        { totalAnalyzed := invoices.length
          totalContacts := groups.length
          autonomousEmails := autonomousEmails
          autonomousCalls := autonomousCalls
          pendingApprovals := pendingApprovals
          noActionCount := noActionInvoices.length
          contactsToEmail := autonomousEmails.length + autonomousCalls.length
          contactsNeedApproval := pendingApprovals.length
          invoicesNoAction := noActionInvoices.length })

/-- The engine's mutable state: configuration, the persisted communication
history, and the `_pending_approvals` attribute set by
`analyze_overdue_invoices`. -/
structure EngineState where
  config : KlausConfig
  communicationHistory : List CommRecord
  pendingApprovals : List EscalationAction := []
deriving DecidableEq

/-- `analyze_overdue_invoices` as a state transformer: on success it stores
the pending approvals in `_pending_approvals` and returns the summary; an
exception leaves the state unchanged. -/
def analyzeOverdueInvoices (s : EngineState) (now : Date) (invoices : List Invoice) :
    Except String (EngineState × AnalysisSummary) :=
  match analyzeOverdueInvoicesCore s.config s.communicationHistory now invoices with
  | .error e => .error e
  | .ok pr => .ok ({ s with pendingApprovals := pr.1 }, pr.2)

/-- `get_pending_approvals`. -/
def getPendingApprovals (s : EngineState) : List EscalationAction := s.pendingApprovals

end KlausEngine

/-! ### Concrete witness data -/

/-- A trivial instantiation of the `fuzzywuzzy` parameter used to evaluate
concrete witness scenarios (these scenarios resolve in the exact-substring
tier, before any fuzzy function is consulted). -/
def fz0 : ReconciliationEngine.Fuzz := ⟨fun _ _ => 0, fun _ _ => 0, fun _ _ => 0⟩

/-- Witness transaction of the spec's confidence scenario: amount $984.50,
dated five days after the invoice, company name contained verbatim. -/
def t3 : ReconciliationEngine.MTransaction :=
  { description := "PAYMENT TERRA NOVA 984.50", amount := 984 + 1/2,
    date := some "2024-01-06" }

/-- Witness invoice: $1000.00, created 2024-01-01. -/
def i3 : ReconciliationEngine.MInvoice :=
  { id := "inv-1", amount := 1000, createdDate := some "2024-01-01",
    companyName := "TERRA NOVA LLC" }

/-- Witness transaction paying `i3` exactly (fast-path confidence 100). -/
def t4 : ReconciliationEngine.MTransaction :=
  { description := "PAYMENT TERRA NOVA 1000", amount := 1000,
    date := some "2024-01-06", transactionId := some "tx-1" }

/-- The match the engine produces for `t4` against `i3`. -/
def m4 : ReconciliationEngine.Match :=
  { transactionId := some "tx-1"
    transactionDate := some "2024-01-06"
    transactionAmount := 1000
    transactionDescription := "PAYMENT TERRA NOVA 1000"
    invoiceId := "inv-1"
    invoiceNumber := none
    invoiceAmount := 1000
    invoiceDate := some "2024-01-01"
    companyName := "TERRA NOVA LLC"
    confidence := 100
    processor := "direct"
    expectedAmount := 1000
    matchReasons :=
      { memoryMatch := 0
        amountMatch := 100
        nameMatch := 100
        dateMatch := 100
        invoiceNumMatch := 0
        processorDetected := none } }

/-- Witness configuration: the source's default configuration. -/
def cfg0 : KlausEngine.KlausConfig := {}

/-- Witness configuration with one blacklisted company. -/
def cfgB : KlausEngine.KlausConfig := { blacklistedContacts := ["Acme LLC"] }

/-- Witness current date. -/
def now0 : Date := ⟨2024, 3, 1⟩

/-- Witness invoice: $1000, due 10 days before `now0`. -/
def invA : KlausEngine.Invoice :=
  { id := some "I1", balanceDue := 1000, dueDate := some "2024-02-20",
    companyName := some "Acme LLC", contactEmail := some "amy@x.com" }

/-- Witness invoice: $700, due 65 days before `now0`, same contact email
as `invA` but a different company. -/
def invC : KlausEngine.Invoice :=
  { id := some "I2", balanceDue := 700, dueDate := some "2023-12-27",
    companyName := some "Beta Inc", contactEmail := some "amy@x.com" }

/-- A contact logged one day before `now0` for invoice `I1`. -/
def recA : KlausEngine.CommRecord :=
  { invoiceId := "I1", companyName := "Acme LLC", sentAt := "2024-02-29" }

/-- A malformed communication record: `sent_at` is not an ISO timestamp. -/
def recBad : KlausEngine.CommRecord :=
  { invoiceId := "I1", companyName := "Acme LLC", sentAt := "not-a-date" }

namespace ReconciliationEngine

/-- The selected best candidate is one of the candidates. -/
theorem pickBest_mem : ∀ {cs : List Candidate} {b : Candidate}, pickBest cs = some b → b ∈ cs := by
  intro cs
  induction cs with
  | nil => intro b h; simp [pickBest] at h
  | cons c cs ih =>
      intro b h
      rw [pickBest] at h
      revert h
      cases hcs : pickBest cs with
      | none =>
          intro h
          simp only [Option.some.injEq] at h
          subst h
          exact List.mem_cons_self c cs
      | some b' =>
          intro h
          by_cases hlt : c.confidence < b'.confidence
          · simp only [if_pos hlt, Option.some.injEq] at h
            subst h
            exact List.mem_cons_of_mem c (ih hcs)
          · simp only [if_neg hlt, Option.some.injEq] at h
            subst h
            exact List.mem_cons_self c cs

/-- Anatomy of a scored candidate: it wraps the scored invoice, its
confidence is strictly above 50, and the pair was not denied. -/
theorem scoreCandidate_spec {fz : Fuzz} {mem : Memory} {proc : Option Processor}
    {desc : String} {t : MTransaction} {invoice : MInvoice} {c : Candidate}
    (h : scoreCandidate fz mem proc desc t invoice = some c) :
    c.invoice = invoice ∧ 50 < c.confidence ∧ isMatchDenied mem desc invoice.id = false := by
  simp only [scoreCandidate] at h
  split at h
  · exact absurd h (by simp)
  next hden =>
    split at h
    next hconf =>
      cases h
      exact ⟨rfl, hconf, by simpa using hden⟩
    next => exact absurd h (by simp)

/-- Anatomy of a produced best match: confidence strictly above 50,
transaction fields copied from the input transaction, invoice id drawn from
the candidate pool, and the (description, invoice id) pair not denied. -/
theorem findBestMatch_spec {fz : Fuzz} {mem : Memory} {t : MTransaction}
    {invs : List MInvoice} {m : Match} (h : findBestMatch fz mem t invs = some m) :
    50 < m.confidence ∧ m.transactionDescription = t.description ∧
    m.transactionId = t.transactionId ∧
    isMatchDenied mem t.description m.invoiceId = false ∧
    ∃ inv ∈ invs, m.invoiceId = inv.id := by
  simp only [findBestMatch] at h
  obtain ⟨best, hpb, hm⟩ := Option.map_eq_some'.mp h
  obtain ⟨inv, hinv, hf⟩ := List.mem_filterMap.mp (pickBest_mem hpb)
  obtain ⟨hbi, hbc, hden⟩ := scoreCandidate_spec hf
  subst hm
  refine ⟨hbc, rfl, rfl, ?_, inv, hinv, ?_⟩
  · show isMatchDenied mem t.description best.invoice.id = false
    rw [hbi]; exact hden
  · show best.invoice.id = inv.id
    rw [hbi]

/-- Anatomy of every match produced by the transaction loop. -/
theorem matchLoop_mem {fz : Fuzz} {mem : Memory} {unpaid : List MInvoice} {th : ℚ} :
    ∀ {ts : List MTransaction} {matched : List String} {m : Match},
    m ∈ matchLoop fz mem unpaid th matched ts →
    50 < m.confidence ∧ th ≤ m.confidence ∧
    isMatchDenied mem m.transactionDescription m.invoiceId = false ∧
    m.invoiceId ∉ matched ∧ (∃ inv ∈ unpaid, m.invoiceId = inv.id) ∧
    ∃ t ∈ ts, m.transactionId = t.transactionId ∧
      m.transactionDescription = t.description := by
  intro ts
  induction ts with
  | nil => intro matched m h; simp [matchLoop] at h
  | cons t ts ih =>
      intro matched m h
      simp only [matchLoop] at h
      split at h
      · obtain ⟨h1, h2, h3, h4, h5, t', ht', h6⟩ := ih h
        exact ⟨h1, h2, h3, h4, h5, t', List.mem_cons_of_mem t ht', h6⟩
      split at h
      · obtain ⟨h1, h2, h3, h4, h5, t', ht', h6⟩ := ih h
        exact ⟨h1, h2, h3, h4, h5, t', List.mem_cons_of_mem t ht', h6⟩
      split at h
      · obtain ⟨h1, h2, h3, h4, h5, t', ht', h6⟩ := ih h
        exact ⟨h1, h2, h3, h4, h5, t', List.mem_cons_of_mem t ht', h6⟩
      split at h
      next m0 hfb =>
        split at h
        next hth =>
          obtain ⟨hc, hdesc, hid, hden, inv, hinv, hiid⟩ := findBestMatch_spec hfb
          rcases List.mem_cons.mp h with rfl | hrest
          · obtain ⟨hinvu, hnm⟩ := List.mem_filter.mp hinv
            refine ⟨hc, hth, ?_, ?_, ⟨inv, hinvu, hiid⟩, t, List.mem_cons_self t ts, hid, hdesc⟩
            · rw [hdesc]; exact hden
            · rw [hiid]; simpa using hnm
          · obtain ⟨h1, h2, h3, h4, h5, t', ht', h6⟩ := ih hrest
            refine ⟨h1, h2, h3, fun hmem => h4 (List.mem_cons_of_mem _ hmem), h5,
              t', List.mem_cons_of_mem t ht', h6⟩
        next =>
          obtain ⟨h1, h2, h3, h4, h5, t', ht', h6⟩ := ih h
          exact ⟨h1, h2, h3, h4, h5, t', List.mem_cons_of_mem t ht', h6⟩
      next =>
        obtain ⟨h1, h2, h3, h4, h5, t', ht', h6⟩ := ih h
        exact ⟨h1, h2, h3, h4, h5, t', List.mem_cons_of_mem t ht', h6⟩

/-- The invoice ids of the produced matches are pairwise distinct. -/
theorem matchLoop_invoiceIds_nodup {fz : Fuzz} {mem : Memory} {unpaid : List MInvoice} {th : ℚ} :
    ∀ {ts : List MTransaction} {matched : List String},
    ((matchLoop fz mem unpaid th matched ts).map Match.invoiceId).Nodup := by
  intro ts
  induction ts with
  | nil => intro matched; simp [matchLoop]
  | cons t ts ih =>
      intro matched
      simp only [matchLoop]
      split
      · exact ih
      split
      · exact ih
      split
      · exact ih
      split
      next m0 hfb =>
        split
        · rw [List.map_cons, List.nodup_cons]
          refine ⟨fun hmem => ?_, ih⟩
          obtain ⟨m', hm', he⟩ := List.mem_map.mp hmem
          have h4 := (matchLoop_mem hm').2.2.2.1
          exact h4 (he ▸ List.mem_cons_self _ _)
        · exact ih
      next => exact ih

/-- With pairwise-distinct input transaction ids, the transaction ids of
the produced matches are pairwise distinct. -/
theorem matchLoop_txnIds_nodup {fz : Fuzz} {mem : Memory} {unpaid : List MInvoice} {th : ℚ} :
    ∀ {ts : List MTransaction} {matched : List String},
    (ts.map MTransaction.transactionId).Nodup →
    ((matchLoop fz mem unpaid th matched ts).map Match.transactionId).Nodup := by
  intro ts
  induction ts with
  | nil => intro matched _; simp [matchLoop]
  | cons t ts ih =>
      intro matched hnd
      rw [List.map_cons, List.nodup_cons] at hnd
      simp only [matchLoop]
      split
      · exact ih hnd.2
      split
      · exact ih hnd.2
      split
      · exact ih hnd.2
      split
      next m0 hfb =>
        split
        next hth =>
          rw [List.map_cons, List.nodup_cons]
          refine ⟨fun hmem => ?_, ih hnd.2⟩
          obtain ⟨m', hm', he⟩ := List.mem_map.mp hmem
          obtain ⟨_, _, _, _, _, t', ht', hid', _⟩ := matchLoop_mem hm'
          have hid0 := (findBestMatch_spec hfb).2.2.1
          exact hnd.1 (List.mem_map.mpr ⟨t', ht', by rw [← hid', he, hid0]⟩)
        next => exact ih hnd.2
      next => exact ih hnd.2

/-- Denying a pair makes `is_match_denied` true. -/
theorem isMatchDenied_denyMatch_self (mem : Memory) (d i n : String) :
    isMatchDenied (denyMatch mem d i n) d i = true := by
  unfold denyMatch
  split
  next h => exact h
  next h =>
    simp [isMatchDenied, List.any_append]

/-- No engine operation un-denies a pair. -/
theorem isMatchDenied_applyOp_mono (mem : Memory) (op : Op) (d i : String)
    (h : isMatchDenied mem d i = true) : isMatchDenied (applyOp mem op) d i = true := by
  cases op with
  | deny d' i' n' =>
      show isMatchDenied (denyMatch mem d' i' n') d i = true
      unfold denyMatch
      split
      · exact h
      · unfold isMatchDenied at h ⊢
        simp only [List.any_append, Bool.or_eq_true]
        exact Or.inl h
  | learn t c => exact h
  | markAccounted d' tid a dt cn iid n =>
      show isMatchDenied (markTransactionAccounted mem d' tid a dt cn iid n) d i = true
      unfold markTransactionAccounted
      split
      · exact h
      · exact h

/-- Denial persists across every sequence of engine operations. -/
theorem isMatchDenied_applyOps_mono (mem : Memory) (ops : List Op) (d i : String)
    (h : isMatchDenied mem d i = true) : isMatchDenied (applyOps mem ops) d i = true := by
  induction ops generalizing mem with
  | nil => exact h
  | cons op ops ih => exact ih (applyOp mem op) (isMatchDenied_applyOp_mono mem op d i h)

end ReconciliationEngine

open ReconciliationEngine in
/-- C10: implicit hidden floor on match confidence — for every transactions
list, every invoices list and every confidence threshold (including
thresholds at or below 50, such as 0), every Match returned by
`match_transactions_to_invoices` has confidence strictly greater than 50,
because `_find_best_match` discards candidate pairs scoring 50 or less
before the caller's threshold is applied. -/
theorem C10_hidden_confidence_floor (fz : Fuzz) (mem : Memory)
    (txns : List MTransaction) (invs : List MInvoice) (th : ℚ) :
    ∀ m ∈ matchTransactionsToInvoices fz mem txns invs th, 50 < m.confidence := by
  intro m hm
  simp only [matchTransactionsToInvoices] at hm
  exact (matchLoop_mem hm).1

set_option maxRecDepth 4000000 in
/-- Witness for C10: a concrete run returning a match of confidence 100 at
threshold 0. -/
theorem C10_hidden_confidence_floor_witness : 50 < m4.confidence :=
  C10_hidden_confidence_floor fz0 {} [t4] [i3] 0 m4 (by decide)

open ReconciliationEngine in
/-- C2: no double-booking — for every transaction list with pairwise
distinct transaction ids and every invoice list, each invoice id and each
transaction id occurs in at most one Match of the output of
`match_transactions_to_invoices`. -/
theorem C2_no_double_booking (fz : Fuzz) (mem : Memory) (txns : List MTransaction)
    (invs : List MInvoice) (th : ℚ)
    (h : (txns.map MTransaction.transactionId).Nodup) :
    ((matchTransactionsToInvoices fz mem txns invs th).map Match.invoiceId).Nodup ∧
    ((matchTransactionsToInvoices fz mem txns invs th).map Match.transactionId).Nodup := by
  constructor
  · simp only [matchTransactionsToInvoices]
    exact matchLoop_invoiceIds_nodup
  · simp only [matchTransactionsToInvoices]
    exact matchLoop_txnIds_nodup h

set_option maxRecDepth 4000000 in
/-- Witness for C2 at a concrete input producing one match. -/
theorem C2_no_double_booking_witness :
    ((ReconciliationEngine.matchTransactionsToInvoices fz0 {} [t4] [i3] 0).map
      ReconciliationEngine.Match.invoiceId).Nodup ∧
    ((ReconciliationEngine.matchTransactionsToInvoices fz0 {} [t4] [i3] 0).map
      ReconciliationEngine.Match.transactionId).Nodup :=
  C2_no_double_booking fz0 {} [t4] [i3] 0 (by decide)

open ReconciliationEngine in
/-- C1: denial respected — once `deny_match(desc, inv_id)` has been called,
every later call to `match_transactions_to_invoices` (after any further
sequence of engine operations on the memory) returns no Match pairing that
exact transaction description with that exact invoice id, for every
confidence threshold including 0. -/
theorem C1_denial_respected (fz : Fuzz) (mem : Memory) (d i n : String) (ops : List Op)
    (txns : List MTransaction) (invs : List MInvoice) (th : ℚ) :
    ∀ m ∈ matchTransactionsToInvoices fz (applyOps (denyMatch mem d i n) ops) txns invs th,
      ¬ (m.transactionDescription = d ∧ m.invoiceId = i) := by
  intro m hm hcon
  simp only [matchTransactionsToInvoices] at hm
  have hfalse := (matchLoop_mem hm).2.2.1
  have htrue := isMatchDenied_applyOps_mono (denyMatch mem d i n) ops d i
    (isMatchDenied_denyMatch_self mem d i n)
  rw [hcon.1, hcon.2] at hfalse
  simp [htrue] at hfalse

set_option maxRecDepth 4000000 in
/-- Witness for C1: after denying an unrelated pair, a concrete run still
returns the match `m4`, which does not carry the denied pair. -/
theorem C1_denial_respected_witness :
    ¬ (m4.transactionDescription = "STRIPE PAYMENT 300" ∧ m4.invoiceId = "inv-9") :=
  C1_denial_respected fz0 {} "STRIPE PAYMENT 300" "inv-9" "2024-02-01" [] [t4] [i3] 0 m4
    (by decide)

set_option maxRecDepth 4000000 in
open ReconciliationEngine in
/-- C3 counterexample: in the spec's own scenario — transaction $984.50
against a $1000.00 invoice (1.55% below), company core name an exact
substring, transaction dated 5 days after invoice creation, no learned
association, no invoice number, no processor — the component scores are
indeed 85/100/100, but the final confidence is 84.75, strictly below 90,
and the name≥95/amount≥90 fast path does not apply because the amount
score is 85 < 90. -/
theorem C3_fast_path_counterexample :
    matchAmountSmart t3 i3 = 85 ∧ matchNamesSmart fz0 t3 i3 = 100 ∧
    matchDates t3 i3 = 100 ∧ checkMemory {} t3 i3 = 0 ∧
    matchInvoiceNumber t3 i3 = 0 ∧ detectProcessor t3 = none ∧
    ¬ (90 ≤ matchAmountSmart t3 i3) ∧
    calculateConfidenceSmart (checkMemory {} t3 i3) (matchAmountSmart t3 i3)
      (matchNamesSmart fz0 t3 i3) (matchDates t3 i3) (matchInvoiceNumber t3 i3)
      (detectProcessor t3) = 339/4 ∧
    ¬ (90 ≤ calculateConfidenceSmart (checkMemory {} t3 i3) (matchAmountSmart t3 i3)
      (matchNamesSmart fz0 t3 i3) (matchDates t3 i3) (matchInvoiceNumber t3 i3)
      (detectProcessor t3)) := by
  decide

open ReconciliationEngine in
/-- C3 (amended): in any scenario with the claim's signals — transaction
amount $984.50 against a $1000.00 invoice, the cleaned core company name an
exact substring of the processed transaction description (tier 1), the
transaction dated 5 days after invoice creation, no learned association, no
invoice number in the description and no detected processor — the component
scores are amount=85, name=100, date=100, and the final confidence is the
weighted blend 0.35·85 + 0.40·100 + 0.15·100 = 84.75, strictly below 90;
the fast path does not apply because it requires an amount score ≥ 90. -/
theorem C3_confidence_scenario (fz : Fuzz) (mem : Memory) (t : MTransaction) (i : MInvoice)
    (hta : |t.amount| = 984 + 1/2) (hia : i.amount = 1000)
    (hne : ¬ (cleanCompanyName t.description = "" ∨ cleanCompanyName i.companyName = ""))
    (htier1 : 5 ≤ (extractCompanyCore (cleanCompanyName i.companyName)).data.length ∧
      containsSub (normWs (PROCESSORS.foldl (fun d p => pyReplace d p.1 "")
        (cleanCompanyName t.description)))
        (extractCompanyCore (cleanCompanyName i.companyName)))
    (htd : t.date.getD "" ≠ "") (hcd : i.createdDate.getD "" ≠ "")
    (hdate : ∃ dt dc, parseDateIso (t.date.getD "") = some dt ∧
      parseDateIso (i.createdDate.getD "") = some dc ∧ dateDiffDays dt dc = 5)
    (hmem : checkMemory mem t i = 0) (hinv : matchInvoiceNumber t i = 0)
    (hproc : detectProcessor t = none) :
    matchAmountSmart t i = 85 ∧ matchNamesSmart fz t i = 100 ∧ matchDates t i = 100 ∧
    calculateConfidenceSmart (checkMemory mem t i) (matchAmountSmart t i)
      (matchNamesSmart fz t i) (matchDates t i) (matchInvoiceNumber t i)
      (detectProcessor t) = 339/4 ∧
    ¬ (90 ≤ calculateConfidenceSmart (checkMemory mem t i) (matchAmountSmart t i)
      (matchNamesSmart fz t i) (matchDates t i) (matchInvoiceNumber t i)
      (detectProcessor t)) := by
  have hamount : matchAmountSmart t i = 85 := by
    simp only [matchAmountSmart, hta, hia]
    decide
  have hname : matchNamesSmart fz t i = 100 := by
    simp only [matchNamesSmart]
    rw [if_neg hne, if_pos htier1]
  have hdates : matchDates t i = 100 := by
    obtain ⟨dt, dc, hdt, hdc, hdiff⟩ := hdate
    simp only [matchDates]
    rw [if_neg (by simp [htd, hcd]), hdt, hdc]
    simp [hdiff]
  refine ⟨hamount, hname, hdates, ?_, ?_⟩
  · rw [hamount, hname, hdates, hmem, hinv, hproc]
    decide
  · rw [hamount, hname, hdates, hmem, hinv, hproc]
    decide

set_option maxRecDepth 4000000 in
/-- Witness for the amended C3 at the concrete scenario `t3`/`i3`. -/
theorem C3_confidence_scenario_witness :
    ReconciliationEngine.matchAmountSmart t3 i3 = 85 ∧
    ReconciliationEngine.matchNamesSmart fz0 t3 i3 = 100 ∧
    ReconciliationEngine.matchDates t3 i3 = 100 ∧
    ReconciliationEngine.calculateConfidenceSmart
      (ReconciliationEngine.checkMemory {} t3 i3)
      (ReconciliationEngine.matchAmountSmart t3 i3)
      (ReconciliationEngine.matchNamesSmart fz0 t3 i3)
      (ReconciliationEngine.matchDates t3 i3)
      (ReconciliationEngine.matchInvoiceNumber t3 i3)
      (ReconciliationEngine.detectProcessor t3) = 339/4 ∧
    ¬ (90 ≤ ReconciliationEngine.calculateConfidenceSmart
      (ReconciliationEngine.checkMemory {} t3 i3)
      (ReconciliationEngine.matchAmountSmart t3 i3)
      (ReconciliationEngine.matchNamesSmart fz0 t3 i3)
      (ReconciliationEngine.matchDates t3 i3)
      (ReconciliationEngine.matchInvoiceNumber t3 i3)
      (ReconciliationEngine.detectProcessor t3)) :=
  C3_confidence_scenario fz0 {} t3 i3 (by decide) (by decide) (by decide)
    ⟨by decide, by decide⟩ (by decide) (by decide)
    ⟨⟨2024, 1, 6⟩, ⟨2024, 1, 1⟩, by decide, by decide, by decide⟩
    (by decide) (by decide) (by decide)

namespace KlausEngine

/-- Destructure a successful `Except.map`. -/
theorem except_map_ok {α β ε : Type} {f : α → β} {x : Except ε α} {b : β}
    (h : x.map f = .ok b) : ∃ a, x = .ok a ∧ b = f a := by
  cases x with
  | error e => simp [Except.map] at h
  | ok a =>
      refine ⟨a, rfl, ?_⟩
      simpa [Except.map] using h.symm

/-- A successful `analyze_invoice` result carries the decision fields of
`analyzeDecision` applied to the invoice's derived quantities. -/
theorem analyzeInvoice_decision_fields {cfg : KlausConfig} {hist : List CommRecord}
    {now : Date} {invoice : Invoice} {r : Analysis}
    (h : analyzeInvoice cfg hist now invoice = .ok r) :
    ∃ d : ℤ, ∃ c : Nat, ∃ dsl : ℤ,
      r.actionRequired = (analyzeDecision cfg d c dsl invoice.balanceDue
        (invoice.companyName.getD "Unknown")).actionRequired ∧
      r.requiresApproval = (analyzeDecision cfg d c dsl invoice.balanceDue
        (invoice.companyName.getD "Unknown")).requiresApproval ∧
      r.escalationLevel = (analyzeDecision cfg d c dsl invoice.balanceDue
        (invoice.companyName.getD "Unknown")).escalationLevel := by
  simp only [analyzeInvoice] at h
  obtain ⟨dsl, _, rfl⟩ := except_map_ok h
  exact ⟨_, _, dsl, rfl, rfl, rfl⟩

/-- Blacklisted companies always come out with `action_required='none'` and
`requires_approval=True`, whatever the other rule branches did. -/
theorem analyzeDecision_blacklist (cfg : KlausConfig) (d : ℤ) (c : Nat) (dsl : ℤ)
    (bal : ℚ) (name : String) (hbl : name ∈ cfg.blacklistedContacts) :
    (analyzeDecision cfg d c dsl bal name).actionRequired = "none" ∧
    (analyzeDecision cfg d c dsl bal name).requiresApproval = true := by
  simp only [analyzeDecision]
  simp only [hbl, if_true]
  split <;> exact ⟨rfl, rfl⟩

/-- Closed form of the escalation level computed by `analyze_invoice`'s
rule block: the 60-day override dominates; otherwise the first-reminder,
follow-up or beyond-autonomous branches; blacklist and VIP checks do not
change the level. -/
theorem analyzeDecision_level (cfg : KlausConfig) (d : ℤ) (c : Nat) (dsl : ℤ)
    (bal : ℚ) (name : String) :
    (analyzeDecision cfg d c dsl bal name).escalationLevel =
    if 60 ≤ d then 5
    else if cfg.daysUntilFirstReminder ≤ d ∧ c = 0 then 1
    else if 0 < c ∧ cfg.daysBetweenReminders ≤ dsl then
      (if c < cfg.maxAutonomousReminders then c + 1 else 4)
    else 0 := by
  simp only [analyzeDecision, apply_ite Decision.escalationLevel, ite_self]
  split_ifs <;> omega

end KlausEngine

open KlausEngine in
/-- C9: for every invoice whose company name is blacklisted, a successful
`analyze_invoice` returns `action_required='none'` together with
`requires_approval=True` — the suppression is surfaced, not silently
dropped. -/
theorem C9_blacklist_requires_approval (cfg : KlausConfig) (hist : List CommRecord)
    (now : Date) (invoice : Invoice) (r : Analysis)
    (hbl : invoice.companyName.getD "Unknown" ∈ cfg.blacklistedContacts)
    (h : analyzeInvoice cfg hist now invoice = .ok r) :
    r.actionRequired = "none" ∧ r.requiresApproval = true := by
  obtain ⟨d, c, dsl, ha, hr, _⟩ := analyzeInvoice_decision_fields h
  obtain ⟨hbn, hbr⟩ := analyzeDecision_blacklist cfg d c dsl invoice.balanceDue
    (invoice.companyName.getD "Unknown") hbl
  exact ⟨ha.trans hbn, hr.trans hbr⟩

set_option maxRecDepth 4000000 in
/-- Witness for C9: the concrete blacklisted invoice `invA` under `cfgB`. -/
theorem C9_blacklist_requires_approval_witness :
    ({ invoiceId := some "I1", invoiceNumber := "I1", companyName := "Acme LLC",
       contactName := "Acme LLC", contactEmail := "amy@x.com", amount := 1000,
       balanceDue := 1000, daysOverdue := 10, dueDate := some "2024-02-20",
       actionRequired := "none", urgency := "low", requiresApproval := true,
       escalationLevel := 1, contactCount := 0, lastContactDate := none,
       previousContacts := [] } : KlausEngine.Analysis).actionRequired = "none" ∧
    ({ invoiceId := some "I1", invoiceNumber := "I1", companyName := "Acme LLC",
       contactName := "Acme LLC", contactEmail := "amy@x.com", amount := 1000,
       balanceDue := 1000, daysOverdue := 10, dueDate := some "2024-02-20",
       actionRequired := "none", urgency := "low", requiresApproval := true,
       escalationLevel := 1, contactCount := 0, lastContactDate := none,
       previousContacts := [] } : KlausEngine.Analysis).requiresApproval = true :=
  C9_blacklist_requires_approval cfgB [] now0 invA _ (by decide) (by decide)

set_option maxRecDepth 4000000 in
open KlausEngine in
/-- C4 counterexample: with the default configuration and the invoice
`invA` (10 days overdue), zero prior contacts give escalation level 1, but
one prior contact — logged the day before the analysis — gives escalation
level 0: the escalation level is NOT monotonic in the prior-contact count
when the added contact is recent. -/
theorem C4_contact_count_counterexample :
    (analyzeInvoice cfg0 [] now0 invA).map Analysis.escalationLevel = .ok 1 ∧
    (analyzeInvoice cfg0 [] now0 invA).map Analysis.contactCount = .ok 0 ∧
    (analyzeInvoice cfg0 [recA] now0 invA).map Analysis.escalationLevel = .ok 0 ∧
    (analyzeInvoice cfg0 [recA] now0 invA).map Analysis.contactCount = .ok 1 := by
  decide

open KlausEngine in
/-- C4 (amended): for configurations whose `max_autonomous_reminders` keeps
autonomous levels within the 0–5 scale (at most 4; the default is 3), the
escalation level of the decision rules is monotonic non-decreasing in
`days_overdue` with all else equal; it is monotonic non-decreasing in the
prior-contact count only on runs where the time since the last contact
stays at least `days_between_reminders` — a recent contact can lower the
level (see the counterexample). -/
theorem C4_escalation_monotonicity (cfg : KlausConfig)
    (hm : cfg.maxAutonomousReminders ≤ 4) (bal : ℚ) (name : String) :
    (∀ d₁ d₂ : ℤ, ∀ c : Nat, ∀ dsl : ℤ, d₁ ≤ d₂ →
      (analyzeDecision cfg d₁ c dsl bal name).escalationLevel ≤
      (analyzeDecision cfg d₂ c dsl bal name).escalationLevel) ∧
    (∀ d : ℤ, ∀ c₁ c₂ : Nat, ∀ dsl : ℤ, c₁ ≤ c₂ → cfg.daysBetweenReminders ≤ dsl →
      (analyzeDecision cfg d c₁ dsl bal name).escalationLevel ≤
      (analyzeDecision cfg d c₂ dsl bal name).escalationLevel) := by
  constructor
  · intro d₁ d₂ c dsl hle
    rw [analyzeDecision_level, analyzeDecision_level]
    split_ifs <;> omega
  · intro d c₁ c₂ dsl hle hdsl
    rw [analyzeDecision_level, analyzeDecision_level]
    split_ifs <;> omega

/-- Witness for the amended C4 at the default configuration. -/
theorem C4_escalation_monotonicity_witness :
    (KlausEngine.analyzeDecision cfg0 10 0 0 1000 "Acme LLC").escalationLevel ≤
      (KlausEngine.analyzeDecision cfg0 65 0 0 1000 "Acme LLC").escalationLevel ∧
    (KlausEngine.analyzeDecision cfg0 10 1 8 1000 "Acme LLC").escalationLevel ≤
      (KlausEngine.analyzeDecision cfg0 10 2 8 1000 "Acme LLC").escalationLevel :=
  ⟨(C4_escalation_monotonicity cfg0 (by decide) 1000 "Acme LLC").1 10 65 0 0 (by decide),
   (C4_escalation_monotonicity cfg0 (by decide) 1000 "Acme LLC").2 10 1 2 8 (by decide)
     (by decide)⟩

set_option maxRecDepth 4000000 in
open KlausEngine in
/-- C5: the code contradicts the claim — `analyze_invoice` parses
`last_contact['sent_at']` outside any `try`, so one malformed
communication-history record makes `analyze_overdue_invoices` raise
(`ValueError` from `datetime.fromisoformat`) instead of returning a
result. -/
theorem C5_uncaught_history_exception :
    analyzeOverdueInvoices ⟨cfg0, [recBad], []⟩ now0 [invA] =
      .error "ValueError: invalid isoformat string in communication history" := by
  decide

/-- Membership in the deduplicated list. -/
theorem pySetListAux_mem : ∀ (seen l : List String) (x : String),
    x ∈ pySetListAux seen l ↔ (x ∈ l ∧ x ∉ seen) := by
  intro seen l
  induction l generalizing seen with
  | nil => intro x; simp [pySetListAux]
  | cons y ys ih =>
      intro x
      rw [pySetListAux]
      by_cases hy : y ∈ seen
      · rw [if_pos hy, ih]
        constructor
        · rintro ⟨hx, hs⟩
          exact ⟨List.mem_cons_of_mem y hx, hs⟩
        · rintro ⟨hx, hs⟩
          rcases List.mem_cons.mp hx with rfl | hx
          · exact absurd hy hs
          · exact ⟨hx, hs⟩
      · rw [if_neg hy]
        constructor
        · intro hx
          rcases List.mem_cons.mp hx with rfl | hx
          · exact ⟨List.mem_cons_self x ys, hy⟩
          · obtain ⟨h1, h2⟩ := (ih (y :: seen) x).mp hx
            refine ⟨List.mem_cons_of_mem y h1, fun hs => h2 (List.mem_cons_of_mem y hs)⟩
        · rintro ⟨hx, hs⟩
          rcases List.mem_cons.mp hx with rfl | hx
          · exact List.mem_cons_self x _
          · by_cases hxy : x = y
            · subst hxy; exact List.mem_cons_self x _
            · exact List.mem_cons_of_mem y ((ih (y :: seen) x).mpr
                ⟨hx, fun hm => by
                  rcases List.mem_cons.mp hm with h | h
                  · exact hxy h
                  · exact hs h⟩)

/-- Membership in `list(set(xs))`. -/
theorem pySetList_mem (l : List String) (x : String) : x ∈ pySetList l ↔ x ∈ l := by
  rw [pySetList, pySetListAux_mem]
  simp

namespace KlausEngine

/-- `analyze_invoice` copies the invoice's `balance_due` into the result. -/
theorem analyzeInvoice_balanceDue {cfg : KlausConfig} {hist : List CommRecord}
    {now : Date} {invoice : Invoice} {r : Analysis}
    (h : analyzeInvoice cfg hist now invoice = .ok r) :
    r.balanceDue = invoice.balanceDue := by
  simp only [analyzeInvoice] at h
  obtain ⟨dsl, _, rfl⟩ := except_map_ok h
  rfl

end KlausEngine

open KlausEngine in
/-- C6: `analyze_overdue_invoices` is deterministic and idempotent — its
output does not depend on the engine-internal mutable state
(`_pending_approvals`), and running it a second time from the state left by
the first run yields the identical summary. -/
theorem C6_idempotent_analysis (c : KlausConfig) (h : List CommRecord)
    (p p' : List EscalationAction) (now : Date) (invoices : List Invoice) :
    ((analyzeOverdueInvoices ⟨c, h, p⟩ now invoices).map (fun r => r.2) =
      (analyzeOverdueInvoices ⟨c, h, p'⟩ now invoices).map (fun r => r.2)) ∧
    (∀ s₁ out, analyzeOverdueInvoices ⟨c, h, p⟩ now invoices = .ok (s₁, out) →
      ∃ s₂, analyzeOverdueInvoices s₁ now invoices = .ok (s₂, out)) := by
  constructor
  · cases hc : analyzeOverdueInvoicesCore c h now invoices with
    | error e => simp [analyzeOverdueInvoices, hc]
    | ok pr => simp [analyzeOverdueInvoices, hc]
  · intro s₁ out hrun
    simp only [analyzeOverdueInvoices] at hrun ⊢
    cases hc : analyzeOverdueInvoicesCore c h now invoices with
    | error e => rw [hc] at hrun; cases hrun
    | ok pr =>
        rw [hc] at hrun
        injection hrun with hrun
        have hs : s₁ = ⟨c, h, pr.1⟩ ∧ out = pr.2 := by
          constructor
          · exact (congrArg Prod.fst hrun).symm
          · exact (congrArg Prod.snd hrun).symm
        rw [hs.1]
        simp only
        rw [hc]
        exact ⟨_, by rw [hs.2]⟩

/-- Witness for C6: running the engine on an empty invoice list succeeds,
and the second run reproduces the same (empty) summary. -/
theorem C6_idempotent_analysis_witness :
    ∃ s₂, KlausEngine.analyzeOverdueInvoices ⟨cfg0, [], []⟩ now0 [] =
      .ok (s₂, { totalAnalyzed := 0, totalContacts := 0, autonomousEmails := [],
                 autonomousCalls := [], pendingApprovals := [], noActionCount := 0,
                 contactsToEmail := 0, contactsNeedApproval := 0, invoicesNoAction := 0 }) :=
  (C6_idempotent_analysis cfg0 [] [] [] now0 []).2 ⟨cfg0, [], []⟩ _ (by decide)

open KlausEngine in
/-- C7: consolidation — exactly two invoices that both require action,
sharing a contact email (not `'unknown'`) but with different company names,
produce exactly one consolidated EscalationAction across all three output
buckets; its companies list contains both company names and its
`total_balance` is the sum of the two invoices' `balance_due` values. -/
theorem C7_consolidation_by_email (cfg : KlausConfig) (hist : List CommRecord) (now : Date)
    (i1 i2 : Invoice) (r1 r2 : Analysis)
    (h1 : analyzeInvoice cfg hist now i1 = .ok r1)
    (h2 : analyzeInvoice cfg hist now i2 = .ok r2)
    (ha1 : r1.actionRequired ≠ "none") (ha2 : r2.actionRequired ≠ "none")
    (he : r1.contactEmail = r2.contactEmail) (hu : r1.contactEmail ≠ "unknown")
    (hc : r1.companyName ≠ r2.companyName) :
    ∃ a : EscalationAction,
      (analyzeOverdueInvoicesCore cfg hist now [i1, i2]).map
        (fun pr => pr.2.autonomousEmails ++ pr.2.autonomousCalls ++ pr.2.pendingApprovals) =
        .ok [a] ∧
      (analyzeOverdueInvoicesCore cfg hist now [i1, i2]).map
        (fun pr => pr.2.totalContacts) = .ok 1 ∧
      r1.companyName ∈ a.companies ∧ r2.companyName ∈ a.companies ∧
      a.totalBalance = i1.balanceDue + i2.balanceDue := by
  have hu2 : r2.contactEmail ≠ "unknown" := he ▸ hu
  have hmap : List.mapM (analyzeInvoice cfg hist now) [i1, i2] = .ok [r1, r2] := by
    rw [List.mapM_cons, List.mapM_cons, List.mapM_nil, h1, h2]
    rfl
  have hby : byContact [r1, r2] = [(r1.contactEmail, [r1, r2])] := by
    simp only [byContact, List.foldl]
    rw [if_pos ha1, if_pos ha2]
    simp only [groupUpdate]
    rw [if_pos hu, if_pos hu2, ← he]
    simp [groupUpdate]
  refine ⟨buildAction cfg hist (r1.contactEmail, [r1, r2]), ?_, ?_, ?_, ?_, ?_⟩
  · simp only [analyzeOverdueInvoicesCore, hmap, hby, List.map, Except.map]
    by_cases hap : (buildAction cfg hist (r1.contactEmail, [r1, r2])).requiresApproval
    · simp [hap, List.filter]
    · have hact : (buildAction cfg hist (r1.contactEmail, [r1, r2])).actionRequired = "call" ∨
          (buildAction cfg hist (r1.contactEmail, [r1, r2])).actionRequired = "email" := by
        simp only [buildAction]
        split <;> simp
      rcases hact with hact | hact <;> simp [hap, hact, List.filter]
  · simp only [analyzeOverdueInvoicesCore, hmap, hby, List.map, Except.map]
    rfl
  · show r1.companyName ∈ (buildAction cfg hist (r1.contactEmail, [r1, r2])).companies
    show r1.companyName ∈ pySetList ([r1, r2].map Analysis.companyName)
    rw [pySetList_mem]
    simp
  · show r2.companyName ∈ pySetList ([r1, r2].map Analysis.companyName)
    rw [pySetList_mem]
    simp
  · show ((([r1, r2].map Analysis.balanceDue)).foldl (· + ·) 0) = i1.balanceDue + i2.balanceDue
    rw [List.map_cons, List.map_cons, List.map_nil]
    simp only [List.foldl]
    rw [analyzeInvoice_balanceDue h1, analyzeInvoice_balanceDue h2, zero_add]

set_option maxRecDepth 4000000 in
/-- Witness for C7: the two concrete invoices `invA` and `invC` share the
contact email `amy@x.com` but belong to different companies; the analysis
consolidates them into a single action totalling $1700. -/
theorem C7_consolidation_by_email_witness :
    ∃ a : KlausEngine.EscalationAction,
      (KlausEngine.analyzeOverdueInvoicesCore cfg0 [] now0 [invA, invC]).map
        (fun pr => pr.2.autonomousEmails ++ pr.2.autonomousCalls ++ pr.2.pendingApprovals) =
        .ok [a] ∧
      (KlausEngine.analyzeOverdueInvoicesCore cfg0 [] now0 [invA, invC]).map
        (fun pr => pr.2.totalContacts) = .ok 1 ∧
      "Acme LLC" ∈ a.companies ∧ "Beta Inc" ∈ a.companies ∧
      a.totalBalance = invA.balanceDue + invC.balanceDue :=
  C7_consolidation_by_email cfg0 [] now0 invA invC
    { invoiceId := some "I1", invoiceNumber := "I1", companyName := "Acme LLC",
      contactName := "Acme LLC", contactEmail := "amy@x.com", amount := 1000,
      balanceDue := 1000, daysOverdue := 10, dueDate := some "2024-02-20",
      actionRequired := "email", urgency := "low", requiresApproval := false,
      escalationLevel := 1, contactCount := 0, lastContactDate := none,
      previousContacts := [] }
    { invoiceId := some "I2", invoiceNumber := "I2", companyName := "Beta Inc",
      contactName := "Beta Inc", contactEmail := "amy@x.com", amount := 700,
      balanceDue := 700, daysOverdue := 65, dueDate := some "2023-12-27",
      actionRequired := "escalate", urgency := "critical", requiresApproval := true,
      escalationLevel := 5, contactCount := 0, lastContactDate := none,
      previousContacts := [] }
    (by decide) (by decide) (by decide) (by decide) (by decide) (by decide) (by decide)

/-! ### String machinery for the VIP tone claim: occurrences of `suspend`
across concatenations. -/

/-- An occurrence of a pattern in `a ++ b` lies in `a`, lies in `b`, or
spans the boundary, splitting the pattern into a non-empty suffix of `a`
and a non-empty prefix of `b`. -/
theorem infix_append_cases {α : Type} {t a b : List α} (h : t <:+: a ++ b) :
    t <:+: a ∨ t <:+: b ∨
      ∃ t₁ t₂, t₁ ++ t₂ = t ∧ t₁ ≠ [] ∧ t₂ ≠ [] ∧ t₁ <:+ a ∧ t₂ <+: b := by
  obtain ⟨s, e, hse⟩ := h
  rw [List.append_assoc] at hse
  rcases List.append_eq_append_iff.mp hse with ⟨a', ha', hte⟩ | ⟨c', _, hb⟩
  · rcases List.append_eq_append_iff.mp hte with ⟨c, hc, _⟩ | ⟨d, ht, hbd⟩
    · left
      exact ⟨s, c, by rw [ha', hc, List.append_assoc]⟩
    · by_cases ha'nil : a' = []
      · right; left
        subst ha'nil
        rw [List.nil_append] at ht
        exact ⟨[], e, by rw [List.nil_append, ht, hbd]⟩
      · by_cases hdnil : d = []
        · left
          subst hdnil
          rw [List.append_nil] at ht
          exact ⟨s, [], by rw [List.append_nil, ht, ha']⟩
        · right; right
          exact ⟨a', d, ht.symm, ha'nil, hdnil, ⟨s, ha'.symm⟩, ⟨e, hbd.symm⟩⟩
  · right; left
    exact ⟨c', e, by rw [← List.append_assoc] at hb; exact hb.symm⟩

/-- `suspend` has seven characters. -/
theorem susChars_length : susChars.length = 7 := rfl

/-- `suspend` does not occur in a concatenation when it occurs in neither
part and no split of it straddles the boundary. -/
theorem noSus_append {a b : List Char} (ha : ¬ susChars <:+: a) (hb : ¬ susChars <:+: b)
    (hspan : ∀ k : Fin 6, ¬ (susChars.take (k.1 + 1) <:+ a ∧ susChars.drop (k.1 + 1) <+: b)) :
    ¬ susChars <:+: a ++ b := by
  intro h
  rcases infix_append_cases h with h | h | ⟨t₁, t₂, heq, hn1, hn2, hsuf, hpre⟩
  · exact ha h
  · exact hb h
  · have hlen : t₁.length + t₂.length = 7 := by
      have h7 := congrArg List.length heq
      rw [List.length_append, susChars_length] at h7
      exact h7
    have h1 : 0 < t₁.length := List.length_pos.mpr hn1
    have h2 : 0 < t₂.length := List.length_pos.mpr hn2
    have htk : susChars.take t₁.length = t₁ := by rw [← heq]; exact List.take_left t₁ t₂
    have hdk : susChars.drop t₁.length = t₂ := by rw [← heq]; exact List.drop_left t₁ t₂
    have hkk : t₁.length - 1 + 1 = t₁.length := by omega
    refine hspan ⟨t₁.length - 1, by omega⟩ ⟨?_, ?_⟩
    · rw [hkk, htk]; exact hsuf
    · rw [hkk, hdk]; exact hpre

/-- The proper suffix pieces of `suspend` are non-empty. -/
theorem susChars_drop_ne_nil : ∀ k : Fin 6, susChars.drop (k.1 + 1) ≠ [] := by decide

/-- A non-empty prefix determines the first element. -/
theorem head_eq_of_prefix {α : Type} {t l : List α} (h : t <+: l) (hne : t ≠ []) :
    t.head? = l.head? := by
  obtain ⟨e, rfl⟩ := h
  cases t with
  | nil => exact absurd rfl hne
  | cons c cs => rfl

/-- Head of an append with non-empty left part. -/
theorem head_append_of_ne_nil {α : Type} (a b : List α) (h : a ≠ []) :
    (a ++ b).head? = a.head? := by
  cases a with
  | nil => exact absurd rfl h
  | cons c cs => rfl

/-- Peel a concrete template fragment `f` from the left of a message: it is
suspension-free and none of `s`, `su`, …, `suspen` is a suffix of it. -/
theorem noSus_frag_append (f : String) (rest : List Char)
    (hf : ¬ susChars <:+: f.data)
    (hsuffix : ∀ k : Fin 6, ¬ susChars.take (k.1 + 1) <:+ f.data)
    (hrest : ¬ susChars <:+: rest) :
    ¬ susChars <:+: f.data ++ rest :=
  noSus_append hf hrest (fun k hk => hsuffix k hk.1)

/-- Peel a caller-supplied input from the left of a message, when the next
piece is a concrete fragment whose first character cannot start any proper
suffix of `suspend`. -/
theorem noSus_input_append (x : List Char) (c : String) (rest : List Char)
    (hx : ¬ susChars <:+: x)
    (hcne : c.data ≠ [])
    (hhead : ∀ k : Fin 6, (susChars.drop (k.1 + 1)).head? ≠ c.data.head?)
    (hrest : ¬ susChars <:+: c.data ++ rest) :
    ¬ susChars <:+: x ++ (c.data ++ rest) :=
  noSus_append hx hrest (fun k hk => by
    have h1 := head_eq_of_prefix hk.2 (susChars_drop_ne_nil k)
    rw [head_append_of_ne_nil c.data rest hcne] at h1
    exact hhead k h1)

/-- Peel a caller-supplied input followed by the final concrete fragment. -/
theorem noSus_append_end (x : List Char) (c : String)
    (hx : ¬ susChars <:+: x)
    (hc : ¬ susChars <:+: c.data)
    (hpre : ∀ k : Fin 6, ¬ susChars.drop (k.1 + 1) <+: c.data) :
    ¬ susChars <:+: x ++ c.data :=
  noSus_append hx hc (fun k hk => hpre k hk.2)

/-- A character list without `s` cannot contain `suspend`. -/
theorem noSus_of_no_s {l : List Char} (h : 's' ∉ l) : ¬ susChars <:+: l :=
  fun hinf => h (hinf.subset (by decide))

/-- `Nat.digitChar` never yields the letter `s`. -/
theorem digitChar_ne_s : ∀ k : Nat, Nat.digitChar k ≠ 's' := by
  intro k
  match k with
  | 0 | 1 | 2 | 3 | 4 | 5 | 6 | 7 | 8 | 9 | 10 | 11 | 12 | 13 | 14 | 15 => decide
  | n + 16 =>
      unfold Nat.digitChar
      repeat rw [if_neg (by omega)]
      decide

/-- The digit accumulator of `Nat.toDigitsCore` never acquires an `s`. -/
theorem no_s_toDigitsCore (b : Nat) :
    ∀ (fuel n : Nat) (ds : List Char), 's' ∉ ds → 's' ∉ Nat.toDigitsCore b fuel n ds := by
  intro fuel
  induction fuel with
  | zero => intro n ds h; rw [Nat.toDigitsCore]; exact h
  | succ fuel ih =>
      intro n ds h
      rw [Nat.toDigitsCore]
      have hd : 's' ∉ (n % b).digitChar :: ds := by
        intro hmem
        rcases List.mem_cons.mp hmem with he | he
        · exact digitChar_ne_s (n % b) he.symm
        · exact h he
      split
      · exact hd
      · exact ih (n / b) ((n % b).digitChar :: ds) hd

/-- Decimal renderings of naturals contain no `s`. -/
theorem no_s_natRepr (n : Nat) : 's' ∉ (Nat.repr n).data :=
  no_s_toDigitsCore 10 (n + 1) n [] (by simp)

/-- Decimal renderings of integers contain no `s`. -/
theorem no_s_intRepr (n : ℤ) : 's' ∉ (Int.repr n).data := by
  cases n with
  | ofNat m => exact no_s_natRepr m
  | negSucc m =>
      show 's' ∉ ("-" ++ Nat.repr (m + 1)).data
      rw [String.data_append]
      intro hmem
      rcases List.mem_append.mp hmem with he | he
      · simp at he
      · exact no_s_natRepr (m + 1) he

/-- The comma-grouping step only adds commas. -/
theorem no_s_commaGroupAux : ∀ (k : Nat) (l : List Char), 's' ∉ l → 's' ∉ commaGroupAux k l := by
  intro k l
  induction l generalizing k with
  | nil => intro h; rw [commaGroupAux]; exact h
  | cons c cs ih =>
      intro h
      have hc : c ≠ 's' := fun he => h (he ▸ List.mem_cons_self c cs)
      have hcs : 's' ∉ cs := fun he => h (List.mem_cons_of_mem c he)
      rw [commaGroupAux]
      split
      · intro hmem
        rcases List.mem_cons.mp hmem with he | hmem
        · exact absurd he (by decide)
        rcases List.mem_cons.mp hmem with he | hmem
        · exact hc he.symm
        · exact ih (k + 1) hcs hmem
      · intro hmem
        rcases List.mem_cons.mp hmem with he | hmem
        · exact hc he.symm
        · exact ih (k + 1) hcs hmem

/-- Money renderings (`f"{x:,.2f}"`) contain no `s`. -/
theorem no_s_formatMoney (x : ℚ) : 's' ∉ (formatMoney x).data := by
  rw [formatMoney]
  intro hmem
  rw [String.data_append, String.data_append, String.data_append] at hmem
  rcases List.mem_append.mp hmem with hmem | he
  rcases List.mem_append.mp hmem with hmem | he
  rcases List.mem_append.mp hmem with he | he
  · revert he
    split <;> decide
  · have : 's' ∉ commaGroup (Nat.repr ((roundHalfEven (x * 100)).natAbs / 100)).data := by
      rw [commaGroup]
      intro hm
      rw [List.mem_reverse] at hm
      have := no_s_commaGroupAux 0 (Nat.repr ((roundHalfEven (x * 100)).natAbs / 100)).data.reverse
        (by rw [List.mem_reverse]; exact no_s_natRepr _) hm
      exact this
    exact this he
  · simp at he
  · revert he
    rw [zeroPad2]
    split
    · intro he
      rcases List.mem_cons.mp he with he | he
      · cases he
      · exact no_s_natRepr _ he
    · exact fun he => no_s_natRepr _ he

/-- Money renderings cannot contain `suspend`. -/
theorem noSus_formatMoney (x : ℚ) : ¬ susChars <:+: (formatMoney x).data :=
  noSus_of_no_s (no_s_formatMoney x)

/-- Integer renderings cannot contain `suspend`. -/
theorem noSus_intRepr (n : ℤ) : ¬ susChars <:+: (Int.repr n).data :=
  noSus_of_no_s (no_s_intRepr n)

/-- Natural-number renderings cannot contain `suspend`. -/
theorem noSus_natRepr (n : Nat) : ¬ susChars <:+: (Nat.repr n).data :=
  noSus_of_no_s (no_s_natRepr n)

/-- Indexed access into a suspension-free company list stays
suspension-free. -/
theorem noSus_get0 (companies : List String)
    (h : ∀ c ∈ companies, ¬ susChars <:+: c.data) (k : Nat) :
    ¬ susChars <:+: ((companies.get? k).getD "").data := by
  cases hget : companies.get? k with
  | none => decide
  | some c =>
      show ¬ susChars <:+: c.data
      exact h c (List.get?_mem hget)

/-- `', '.join(companies)` of suspension-free companies is
suspension-free. -/
theorem noSus_pyJoin (l : List String) (h : ∀ c ∈ l, ¬ susChars <:+: c.data) :
    ¬ susChars <:+: (pyJoin ", " l).data := by
  induction l with
  | nil => decide
  | cons x xs ih =>
      cases xs with
      | nil => exact h x (List.mem_cons_self x [])
      | cons y ys =>
          show ¬ susChars <:+: (x ++ ", " ++ pyJoin ", " (y :: ys)).data
          rw [String.data_append, String.data_append, List.append_assoc]
          refine noSus_input_append x.data ", " (pyJoin ", " (y :: ys)).data
            (h x (List.mem_cons_self x _)) (by decide) (by decide) ?_
          refine noSus_frag_append ", " (pyJoin ", " (y :: ys)).data (by decide) (by decide) ?_
          exact ih (fun c hc => h c (List.mem_cons_of_mem x hc))

/-- The overflow form `"{c0}, {c1}, and {n} other properties"` of the VIP
companies line is suspension-free for suspension-free companies. -/
theorem noSus_companies_over (companies : List String)
    (h : ∀ c ∈ companies, ¬ susChars <:+: c.data) :
    ¬ susChars <:+: ((companies.get? 0).getD "" ++ ", " ++ (companies.get? 1).getD "" ++
      ", and " ++ Nat.repr (companies.length - 2) ++ " other properties").data := by
  simp only [String.data_append, List.append_assoc]
  refine noSus_input_append _ ", " _ (noSus_get0 companies h 0) (by decide) (by decide) ?_
  refine noSus_frag_append ", " _ (by decide) (by decide) ?_
  refine noSus_input_append _ ", and " _ (noSus_get0 companies h 1) (by decide) (by decide) ?_
  refine noSus_frag_append ", and " _ (by decide) (by decide) ?_
  exact noSus_append_end _ " other properties" (noSus_natRepr _) (by decide) (by decide)

set_option maxRecDepth 8000000
set_option maxHeartbeats 4000000

/-- The early-stage VIP template (escalation ≤ 2) adds no `suspend` around
suspension-free parts. -/
theorem noSus_vip_low (cp greeting plural cs table money sig : String)
    (h1 : ¬ susChars <:+: cp.data) (h2 : ¬ susChars <:+: greeting.data)
    (h3 : ¬ susChars <:+: plural.data) (h4 : ¬ susChars <:+: cs.data)
    (h5 : ¬ susChars <:+: table.data) (h6 : ¬ susChars <:+: money.data)
    (h7 : ¬ susChars <:+: sig.data) :
    ¬ susChars <:+: ("Subject: Outstanding Invoices - " ++ cp ++ "\n\n" ++ greeting ++
      "\n\nI wanted to reach out regarding some outstanding " ++ plural ++
      " across your properties. I know you're managing " ++ cs ++
      ", so I've consolidated everything here for your review.\n\nOutstanding Invoices:\n" ++
      table ++ "\n\nTotal Outstanding: $" ++ money ++
      "\n\nI wanted to make sure these are on your radar. If you need any documentation or have questions about any of these invoices, I'm happy to help.\n\nLooking forward to hearing from you.\n\nBest regards,\n" ++
      sig).data := by
  simp only [String.data_append, List.append_assoc]
  refine noSus_frag_append "Subject: Outstanding Invoices - " _ (by decide) (by decide) ?_
  refine noSus_input_append cp.data "\n\n" _ h1 (by decide) (by decide) ?_
  refine noSus_frag_append "\n\n" _ (by decide) (by decide) ?_
  refine noSus_input_append greeting.data
    "\n\nI wanted to reach out regarding some outstanding " _ h2 (by decide) (by decide) ?_
  refine noSus_frag_append "\n\nI wanted to reach out regarding some outstanding " _
    (by decide) (by decide) ?_
  refine noSus_input_append plural.data
    " across your properties. I know you're managing " _ h3 (by decide) (by decide) ?_
  refine noSus_frag_append " across your properties. I know you're managing " _
    (by decide) (by decide) ?_
  refine noSus_input_append cs.data
    ", so I've consolidated everything here for your review.\n\nOutstanding Invoices:\n" _
    h4 (by decide) (by decide) ?_
  refine noSus_frag_append
    ", so I've consolidated everything here for your review.\n\nOutstanding Invoices:\n" _
    (by decide) (by decide) ?_
  refine noSus_input_append table.data "\n\nTotal Outstanding: $" _ h5 (by decide)
    (by decide) ?_
  refine noSus_frag_append "\n\nTotal Outstanding: $" _ (by decide) (by decide) ?_
  refine noSus_input_append money.data
    "\n\nI wanted to make sure these are on your radar. If you need any documentation or have questions about any of these invoices, I'm happy to help.\n\nLooking forward to hearing from you.\n\nBest regards,\n"
    _ h6 (by decide) (by decide) ?_
  exact noSus_frag_append _ sig.data (by decide) (by decide) h7

/-- The mid-stage VIP template (2 < escalation ≤ 4) adds no `suspend`
around suspension-free parts. -/
theorem noSus_vip_mid (greeting plural cs hsSec table money days sig : String)
    (h2 : ¬ susChars <:+: greeting.data) (h3 : ¬ susChars <:+: plural.data)
    (h4 : ¬ susChars <:+: cs.data) (hsec : ¬ susChars <:+: hsSec.data)
    (h5 : ¬ susChars <:+: table.data) (h6 : ¬ susChars <:+: money.data)
    (hdy : ¬ susChars <:+: days.data) (h7 : ¬ susChars <:+: sig.data) :
    ¬ susChars <:+: ("Subject: Following Up - Outstanding Invoices\n\n" ++ greeting ++
      "\n\nI wanted to follow up regarding the outstanding " ++ plural ++ " across " ++
      cs ++ ". " ++ hsSec ++
      "I know managing multiple properties keeps you busy, so I've consolidated everything in one place:\n\nOutstanding Invoices:\n" ++
      table ++ "\n\nTotal Outstanding: $" ++ money ++ "\nOldest Invoice: " ++ days ++
      " days past due\n\nI understand cash flow timing can be challenging with multiple properties. Could we schedule a quick call to discuss payment timing? I want to make sure we're aligned and can support you however needed.\n\nYou can reach me directly at 305-209-7218.\n\nBest regards,\n" ++
      sig).data := by
  simp only [String.data_append, List.append_assoc]
  refine noSus_frag_append "Subject: Following Up - Outstanding Invoices\n\n" _
    (by decide) (by decide) ?_
  refine noSus_input_append greeting.data
    "\n\nI wanted to follow up regarding the outstanding " _ h2 (by decide) (by decide) ?_
  refine noSus_frag_append "\n\nI wanted to follow up regarding the outstanding " _
    (by decide) (by decide) ?_
  refine noSus_input_append plural.data " across " _ h3 (by decide) (by decide) ?_
  refine noSus_frag_append " across " _ (by decide) (by decide) ?_
  refine noSus_input_append cs.data ". " _ h4 (by decide) (by decide) ?_
  refine noSus_frag_append ". " _ (by decide) (by decide) ?_
  refine noSus_input_append hsSec.data
    "I know managing multiple properties keeps you busy, so I've consolidated everything in one place:\n\nOutstanding Invoices:\n"
    _ hsec (by decide) (by decide) ?_
  refine noSus_frag_append
    "I know managing multiple properties keeps you busy, so I've consolidated everything in one place:\n\nOutstanding Invoices:\n"
    _ (by decide) (by decide) ?_
  refine noSus_input_append table.data "\n\nTotal Outstanding: $" _ h5 (by decide)
    (by decide) ?_
  refine noSus_frag_append "\n\nTotal Outstanding: $" _ (by decide) (by decide) ?_
  refine noSus_input_append money.data "\nOldest Invoice: " _ h6 (by decide) (by decide) ?_
  refine noSus_frag_append "\nOldest Invoice: " _ (by decide) (by decide) ?_
  refine noSus_input_append days.data
    " days past due\n\nI understand cash flow timing can be challenging with multiple properties. Could we schedule a quick call to discuss payment timing? I want to make sure we're aligned and can support you however needed.\n\nYou can reach me directly at 305-209-7218.\n\nBest regards,\n"
    _ hdy (by decide) (by decide) ?_
  exact noSus_frag_append _ sig.data (by decide) (by decide) h7

/-- The final-stage VIP template (escalation ≥ 5) adds no `suspend` around
suspension-free parts. -/
theorem noSus_vip_final (greeting plural hsSec table money days sig : String)
    (h2 : ¬ susChars <:+: greeting.data) (h3 : ¬ susChars <:+: plural.data)
    (hsec : ¬ susChars <:+: hsSec.data) (h5 : ¬ susChars <:+: table.data)
    (h6 : ¬ susChars <:+: money.data) (hdy : ¬ susChars <:+: days.data)
    (h7 : ¬ susChars <:+: sig.data) :
    ¬ susChars <:+: ("Subject: Important - Outstanding Balance Requiring Attention\n\n" ++
      greeting ++ "\n\nI need to bring some outstanding " ++ plural ++
      " to your attention. " ++ hsSec ++
      "These invoices have been pending for some time:\n\nOutstanding Invoices:\n" ++
      table ++ "\n\nTotal Outstanding: $" ++ money ++ "\nOldest Invoice: " ++ days ++
      " days past due\n\nI'd really appreciate if we could get these resolved. I understand things get busy managing multiple properties, but this balance is significantly overdue and needs attention.\n\nCan we schedule a call this week to discuss? I'm available at your convenience and want to work with you to get this sorted out.\n\nPlease call me at 305-209-7218 or reply to this email.\n\nBest regards,\n" ++
      sig).data := by
  simp only [String.data_append, List.append_assoc]
  refine noSus_frag_append "Subject: Important - Outstanding Balance Requiring Attention\n\n"
    _ (by decide) (by decide) ?_
  refine noSus_input_append greeting.data "\n\nI need to bring some outstanding " _ h2
    (by decide) (by decide) ?_
  refine noSus_frag_append "\n\nI need to bring some outstanding " _ (by decide)
    (by decide) ?_
  refine noSus_input_append plural.data " to your attention. " _ h3 (by decide)
    (by decide) ?_
  refine noSus_frag_append " to your attention. " _ (by decide) (by decide) ?_
  refine noSus_input_append hsSec.data
    "These invoices have been pending for some time:\n\nOutstanding Invoices:\n" _ hsec
    (by decide) (by decide) ?_
  refine noSus_frag_append
    "These invoices have been pending for some time:\n\nOutstanding Invoices:\n" _
    (by decide) (by decide) ?_
  refine noSus_input_append table.data "\n\nTotal Outstanding: $" _ h5 (by decide)
    (by decide) ?_
  refine noSus_frag_append "\n\nTotal Outstanding: $" _ (by decide) (by decide) ?_
  refine noSus_input_append money.data "\nOldest Invoice: " _ h6 (by decide) (by decide) ?_
  refine noSus_frag_append "\nOldest Invoice: " _ (by decide) (by decide) ?_
  refine noSus_input_append days.data
    " days past due\n\nI'd really appreciate if we could get these resolved. I understand things get busy managing multiple properties, but this balance is significantly overdue and needs attention.\n\nCan we schedule a call this week to discuss? I'm available at your convenience and want to work with you to get this sorted out.\n\nPlease call me at 305-209-7218 or reply to this email.\n\nBest regards,\n"
    _ hdy (by decide) (by decide) ?_
  exact noSus_frag_append _ sig.data (by decide) (by decide) h7

/-- The mid-stage VIP history block is suspension-free for suspension-free
contact history. -/
theorem noSus_history_mid (ch : String) (h : ¬ susChars <:+: ch.data) :
    ¬ susChars <:+: ("\nI've reached out a couple times:\n" ++ ch ++ "\n\n").data := by
  simp only [String.data_append, List.append_assoc]
  refine noSus_frag_append "\nI've reached out a couple times:\n" _ (by decide)
    (by decide) ?_
  exact noSus_append_end ch.data "\n\n" h (by decide) (by decide)

/-- The final-stage VIP history block is suspension-free for
suspension-free contact history. -/
theorem noSus_history_final (ch : String) (h : ¬ susChars <:+: ch.data) :
    ¬ susChars <:+: ("\nPrevious contact attempts:\n" ++ ch ++ "\n\n").data := by
  simp only [String.data_append, List.append_assoc]
  refine noSus_frag_append "\nPrevious contact attempts:\n" _ (by decide) (by decide) ?_
  exact noSus_append_end ch.data "\n\n" h (by decide) (by decide)

/-- The invoice/invoices plural choice is suspension-free. -/
theorem noSus_plural (n : Nat) :
    ¬ susChars <:+: (if 1 < n then "invoices" else "invoice").data := by
  split <;> decide

/-- The subject-line company part of the early VIP template is
suspension-free for suspension-free company names. -/
theorem noSus_cp (companies : List String)
    (h : ∀ c ∈ companies, ¬ susChars <:+: c.data) :
    ¬ susChars <:+: (if companies.length = 1 then (companies.get? 0).getD ""
      else "Multiple Properties").data := by
  split
  · exact noSus_get0 companies h 0
  · decide

/-- The companies summary string is suspension-free for suspension-free
company names. -/
theorem noSus_companiesStr (companies : List String)
    (h : ∀ c ∈ companies, ¬ susChars <:+: c.data) :
    ¬ susChars <:+: (if companies.length ≤ 3 then pyJoin ", " companies
      else (companies.get? 0).getD "" ++ ", " ++ (companies.get? 1).getD "" ++ ", and " ++
        Nat.repr (companies.length - 2) ++ " other properties").data := by
  split
  · exact noSus_pyJoin companies h
  · exact noSus_companies_over companies h

/-- The mid-stage history block (including the empty case) is
suspension-free for suspension-free contact history. -/
theorem noSus_hist_mid_ite (ch : String) (h : ¬ susChars <:+: ch.data) :
    ¬ susChars <:+: (if ch ≠ "" then "\nI've reached out a couple times:\n" ++ ch ++ "\n\n"
      else "").data := by
  split
  · exact noSus_history_mid ch h
  · decide

/-- The final-stage history block (including the empty case) is
suspension-free for suspension-free contact history. -/
theorem noSus_hist_final_ite (ch : String) (h : ¬ susChars <:+: ch.data) :
    ¬ susChars <:+: (if ch ≠ "" then "\nPrevious contact attempts:\n" ++ ch ++ "\n\n"
      else "").data := by
  split
  · exact noSus_history_final ch h
  · decide

open KlausEngine in
/-- C8 (amended): at every escalation level, the fixed text of the VIP
templates contributes no occurrence of the word `suspend`: whenever the
caller-supplied fields assembled by `_generate_consolidated_message` —
greeting, company names, invoice table, contact-history block and signature
— are themselves free of `suspend`, so is the whole composed VIP message
(the rendered money and day-count numerals cannot contain letters).
Without the proviso on the fields the original claim fails, because input
text such as a company name flows verbatim into the message (see the
counterexample). -/
theorem C8_vip_template_no_suspend (greeting : String) (companies : List String)
    (invoiceCount : Nat) (invoiceTable : String) (totalBalance : ℚ) (oldestDays : ℤ)
    (escalationLevel : Nat) (contactHistory : String) (signature : String)
    (hg : ¬ susChars <:+: greeting.data)
    (hcs : ∀ c ∈ companies, ¬ susChars <:+: c.data)
    (ht : ¬ susChars <:+: invoiceTable.data)
    (hh : ¬ susChars <:+: contactHistory.data)
    (hs : ¬ susChars <:+: signature.data) :
    ¬ susChars <:+: (generateVipMessage greeting companies invoiceCount invoiceTable
      totalBalance oldestDays escalationLevel contactHistory signature).data := by
  simp only [generateVipMessage]
  by_cases h1 : escalationLevel ≤ 2
  · rw [if_pos h1]
    exact noSus_vip_low _ _ _ _ _ _ _ (noSus_cp companies hcs) hg
      (noSus_plural invoiceCount) (noSus_companiesStr companies hcs) ht
      (noSus_formatMoney totalBalance) hs
  · rw [if_neg h1]
    by_cases h2 : escalationLevel ≤ 4
    · rw [if_pos h2]
      exact noSus_vip_mid _ _ _ _ _ _ _ _ hg (noSus_plural invoiceCount)
        (noSus_companiesStr companies hcs) (noSus_hist_mid_ite contactHistory hh) ht
        (noSus_formatMoney totalBalance) (noSus_intRepr oldestDays) hs
    · rw [if_neg h2]
      exact noSus_vip_final _ _ _ _ _ _ _ hg (noSus_plural invoiceCount)
        (noSus_hist_final_ite contactHistory hh) ht (noSus_formatMoney totalBalance)
        (noSus_intRepr oldestDays) hs

set_option maxRecDepth 8000000 in
/-- C8 counterexample: the claim as stated quantifies over every invoice
group, but caller data flows verbatim into the composed message — a VIP
contact group whose company is named `suspend co` yields a composed
message (via `_generate_consolidated_message` with `is_vip=True`, at
escalation level 1) that does contain the word `suspend`. -/
theorem C8_vip_injection_counterexample :
    susChars <:+: (KlausEngine.generateConsolidatedMessage cfg0 "Amy Pond" ["suspend co"]
      [{ invoiceId := some "I1", invoiceNumber := "1001", companyName := "suspend co",
         contactName := "Amy Pond", contactEmail := "amy@x.com", amount := 100,
         balanceDue := 100, daysOverdue := 12, dueDate := some "2024-02-18",
         actionRequired := "email", urgency := "low", requiresApproval := false,
         escalationLevel := 1, contactCount := 0, lastContactDate := none,
         previousContacts := [] }] 1 [] true).data := by
  decide

set_option maxRecDepth 8000000 in
/-- Witness for the amended C8 at concrete suspension-free fields, at the
standard-threat escalation level 4. -/
theorem C8_vip_template_no_suspend_witness :
    ¬ susChars <:+: (KlausEngine.generateVipMessage "Hi Amy," ["Acme LLC", "Beta Inc"] 2
      "  Invoice   1001 | Due: 02/20/2024 |  65 days overdue | $  1,000.00" 1700 65 4 ""
      "Klaus").data :=
  C8_vip_template_no_suspend "Hi Amy," ["Acme LLC", "Beta Inc"] 2
    "  Invoice   1001 | Due: 02/20/2024 |  65 days overdue | $  1,000.00" 1700 65 4 ""
    "Klaus" (by decide) (by decide) (by decide) (by decide) (by decide)
